import Mathlib

/-!
# HSI hardware driver interface (`drivers/staging/omap_hsi/hsi_driver_if.c`)

A shallow embedding of the driver interface functions and theorems about them.

Conventions of the embedding:

* `u32` values are natural numbers; truncation to 32 bits is written out where the
  C arithmetic can wrap (unary minus, left shift).
* The register file is a map from symbolic register names to values.  The offset
  macros (`HSI_HSR_MODE_REG(port)`, ...) live in a header that is not among the
  sources, so a register is identified by its macro name and arguments.  A register
  write stores the value; what the hardware wake register does on a write of the
  set-wake or clear-wake register is a parameter (`Env`).
* The controller has one port; the device handle of a client is its channel number.
* Numeric constants of that header are collected in `Consts` and are parameters of
  every function that uses them.
* Every register access and every call of a function outside this file is recorded
  in a trace, so that "no register was written" and "no backend was invoked" can be
  stated.
* Spin locks and log messages are not represented.
-/

namespace Hsi

/-- Truncation of a natural number to an unsigned 32-bit word. -/
def u32 (x : Nat) : Nat := x % 4294967296

/-- The sentinel `NOT_SET` of line 23: `(-1)`, as seen by a comparison with a `u32`. -/
def NOT_SET : Nat := 4294967295

/-- Linux errno `EINVAL`. -/
def EINVAL : Int := 22

/-- Linux errno `EBUSY`. -/
def EBUSY : Int := 16

/-- Linux errno `ENODEV`. -/
def ENODEV : Int := 19

/-- Linux errno `ENOIOCTLCMD`. -/
def ENOIOCTLCMD : Int := 515

/-- The Linux macro `BIT(nr)`. -/
def BIT (nr : Nat) : Nat := 1 <<< nr

/-- Bitwise complement of a 32-bit word (`~x`). -/
def not32 (x : Nat) : Nat := 4294967295 ^^^ x

/-- Numeric constants used by the file whose defining header is not among the
sources.  They are parameters of the embedding. -/
structure Consts where
  HSI_MODE_VAL_MASK : Nat
  HSI_MODE_STREAM : Nat
  HSI_MODE_FRAME : Nat
  HSI_MODE_SLEEP : Nat
  HSI_FLOW_VAL_MASK : Nat
  HSI_FLOW_OFFSET : Nat
  HSI_FLOW_SYNCHRONIZED : Nat
  HSI_FLOW_PIPELINED : Nat
  HSI_FRAMESIZE_MAX : Nat
  HSI_MAX_RX_DIVISOR : Nat
  HSI_MAX_TX_DIVISOR : Nat
  HSI_SSI_MAX_TX_DIVISOR : Nat
  HSI_HSR_DIVISOR_AUTO : Nat
  HSI_SSR_DIVISOR_USE_TIMEOUT : Nat
  HSI_ARBMODE_ROUNDROBIN : Nat
  HSI_ARBMODE_PRIORITY : Nat
  HSI_HST_MODE_WAKE_CTRL_SW : Nat
  HSI_CAWAKEDETECTED : Nat
  HSI_ERROROCCURED : Nat
  HSI_BREAKDETECTED : Nat
  HSI_WAKE_MASK : Nat
deriving DecidableEq, Repr

/-- The values these constants have in the OMAP4 HSI headers; used for concrete
evaluations only. -/
def omap4 : Consts where
  HSI_MODE_VAL_MASK := 3
  HSI_MODE_STREAM := 1
  HSI_MODE_FRAME := 2
  HSI_MODE_SLEEP := 0
  HSI_FLOW_VAL_MASK := 3
  HSI_FLOW_OFFSET := 2
  HSI_FLOW_SYNCHRONIZED := 0
  HSI_FLOW_PIPELINED := 1
  HSI_FRAMESIZE_MAX := 31
  HSI_MAX_RX_DIVISOR := 255
  HSI_MAX_TX_DIVISOR := 255
  HSI_SSI_MAX_TX_DIVISOR := 127
  HSI_HSR_DIVISOR_AUTO := 4096
  HSI_SSR_DIVISOR_USE_TIMEOUT := 4097
  HSI_ARBMODE_ROUNDROBIN := 0
  HSI_ARBMODE_PRIORITY := 1
  HSI_HST_MODE_WAKE_CTRL_SW := 16
  HSI_CAWAKEDETECTED := 256
  HSI_ERROROCCURED := 512
  HSI_BREAKDETECTED := 1024
  HSI_WAKE_MASK := 65535

/-- Symbolic register names: one constructor per offset macro used in the file. -/
inductive Reg where
  | HSI_HSR_COUNTERS_REG (port : Nat)
  | HSI_HSR_DIVISOR_REG (port : Nat)
  | HSI_HSR_MODE_REG (port : Nat)
  | HSI_HSR_FRAMESIZE_REG (port : Nat)
  | HSI_HSR_CHANNELS_REG (port : Nat)
  | HSI_HSR_RXSTATE_REG (port : Nat)
  | HSI_HST_MODE_REG (port : Nat)
  | HSI_HST_FRAMESIZE_REG (port : Nat)
  | HSI_HST_CHANNELS_REG (port : Nat)
  | HSI_HST_DIVISOR_REG (port : Nat)
  | HSI_HST_ARBMODE_REG (port : Nat)
  | HSI_HST_BREAK_REG (port : Nat)
  | HSI_HST_TXSTATE_REG (port : Nat)
  | HSI_SYS_MPU_ENABLE_REG (port : Nat) (irq : Nat)
  | HSI_SYS_WAKE_REG (port : Nat)
  | HSI_SYS_SET_WAKE_REG (port : Nat)
  | HSI_SYS_CLEAR_WAKE_REG (port : Nat)
deriving DecidableEq, Repr

/-- Functions of the driver that are called from this file but defined elsewhere. -/
inductive Extern where
  | hsi_driver_enable_write_interrupt
  | hsi_driver_write_dma
  | hsi_driver_enable_read_interrupt
  | hsi_driver_read_dma
  | hsi_driver_cancel_write_interrupt
  | hsi_driver_cancel_write_dma
  | hsi_driver_cancel_read_interrupt
  | hsi_driver_cancel_read_dma
  | hsi_softreset
  | hsi_softreset_driver
deriving DecidableEq, Repr

/-- Observable actions of a call, in program order. -/
inductive Event where
  | inl (r : Reg)
  | outl (v : Nat) (r : Reg)
  | call (f : Extern) (ch : Nat)
  | clocks_enable (ch : Nat)
  | clocks_disable (ch : Nat)
  | get_cawake
  | cancel_work_sync
deriving DecidableEq, Repr

/-- A transfer descriptor (`ch->read_data`, `ch->write_data`): buffer address
(`0` is `NULL`), word count, backend handle. -/
structure hsi_data where
  addr : Nat
  size : Nat
  lch : Int
deriving DecidableEq, Repr

/-- The flag word `ch->flags`, one boolean per flag bit. -/
structure ch_flags where
  HSI_CH_OPEN : Bool
  HSI_CH_RX_POLL : Bool
  HSI_CH_ACWAKE : Bool
deriving DecidableEq, Repr

/-- The fields of `struct hsi_channel` used by the file.  A callback field is `true`
when the function pointer is not `NULL`. -/
structure hsi_channel where
  flags : ch_flags
  read_data : hsi_data
  write_data : hsi_data
  read_done : Bool
  write_done : Bool
  port_event : Bool
deriving DecidableEq, Repr

/-- The fields of `struct hsi_port` used by the file. -/
structure hsi_port where
  port_number : Nat
  max_ch : Nat
  n_irq : Nat
  cawake_gpio : Int
  counters_on : Nat
  reg_counters : Nat
deriving DecidableEq, Repr

/-- Controller state: hardware variant (`hsi_driver_device_is_hsi`), register file,
wake shadows, the port, its channels by channel number, the clock reference
count, the level of the peer's physical wake-evidence line, and whether the deferred
task of the port (`hsi_work`) is queued. -/
structure State where
  is_hsi : Bool
  regs : Reg → Nat
  acwake_status : Nat
  cawake_status : Nat
  port : hsi_port
  chans : Nat → hsi_channel
  clk : Int
  cawake_level : Nat
  hsi_work_pending : Bool

/-- The state together with the trace of actions performed so far. -/
structure Sys where
  st : State
  trace : List Event

/-- Update of the port record. -/
def Sys.setPort (s : Sys) (f : hsi_port → hsi_port) : Sys :=
  { s with st := { s.st with port := f s.st.port } }

/-- Update of one channel record. -/
def State.setCh (st : State) (n : Nat) (f : hsi_channel → hsi_channel) : State :=
  { st with chans := Function.update st.chans n (f (st.chans n)) }

/-- Register read `hsi_inl(base, offset)`. -/
def hsi_inl (r : Reg) (s : Sys) : Nat × Sys :=
  (s.st.regs r, { s with trace := s.trace ++ [Event.inl r] })

/-- Register write `hsi_outl(data, base, offset)`. -/
def hsi_outl (v : Nat) (r : Reg) (s : Sys) : Sys :=
  { st := { s.st with regs := Function.update s.st.regs r v },
    trace := s.trace ++ [Event.outl v r] }

/-- The function `hsi_set_rx_divisor` (lines 30-84). -/
def hsi_set_rx_divisor (K : Consts) (divisor : Nat) (s : Sys) : Int × Sys :=
  let port := s.st.port.port_number
  if divisor = NOT_SET then (0, s)
  else if s.st.is_hsi then
    if divisor = K.HSI_HSR_DIVISOR_AUTO ∧ s.st.port.counters_on ≠ 0 then
      let r := hsi_inl (Reg.HSI_HSR_COUNTERS_REG port) s
      let s1 := r.2.setPort (fun p => { p with reg_counters := r.1 })
      let s2 := s1.setPort (fun p => { p with counters_on := 0 })
      let s3 := hsi_outl 0 (Reg.HSI_HSR_COUNTERS_REG port) s2
      (0, hsi_outl 0 (Reg.HSI_HSR_DIVISOR_REG port) s3)
    else if divisor ≠ K.HSI_HSR_DIVISOR_AUTO then
      let s1 :=
        if s.st.port.counters_on = 0 then
          (hsi_outl s.st.port.reg_counters (Reg.HSI_HSR_COUNTERS_REG port) s).setPort
            (fun p => { p with counters_on := 1 })
        else s
      (0, hsi_outl divisor (Reg.HSI_HSR_DIVISOR_REG port) s1)
    else (0, s)
  else
    if divisor = K.HSI_HSR_DIVISOR_AUTO ∧ s.st.port.counters_on ≠ 0 then
      let r := hsi_inl (Reg.HSI_HSR_COUNTERS_REG port) s
      let s1 := r.2.setPort (fun p => { p with reg_counters := r.1 })
      let s2 := s1.setPort (fun p => { p with counters_on := 0 })
      (0, hsi_outl 0 (Reg.HSI_HSR_COUNTERS_REG port) s2)
    else if divisor = K.HSI_SSR_DIVISOR_USE_TIMEOUT ∧ s.st.port.counters_on = 0 then
      (0, (hsi_outl s.st.port.reg_counters (Reg.HSI_HSR_COUNTERS_REG port) s).setPort
            (fun p => { p with counters_on := 1 }))
    else (0, s)

/-- The RX configuration `struct hsr_ctx`, with the fields the file reads. -/
structure hsr_ctx where
  mode : Nat
  flow : Nat
  frame_size : Nat
  channels : Nat
  divisor : Nat
deriving DecidableEq, Repr

/-- The TX configuration `struct hst_ctx`. -/
structure hst_ctx where
  mode : Nat
  flow : Nat
  frame_size : Nat
  channels : Nat
  divisor : Nat
  arb_mode : Nat
deriving DecidableEq, Repr

/-- Lines 118-145 of `hsi_set_rx`: channel range check, divisor check, register
writes, single-bit check of the channel mask, divisor update. -/
def hsi_set_rx_tail (K : Consts) (cfg : hsr_ctx) (s : Sys) : Int × Sys :=
  let port := s.st.port.port_number
  if cfg.channels = 0 ∨ (cfg.channels > s.st.port.max_ch ∧ cfg.channels ≠ NOT_SET) then
    (-EINVAL, s)
  else if s.st.is_hsi = true ∧ cfg.divisor > K.HSI_MAX_RX_DIVISOR ∧
      cfg.divisor ≠ K.HSI_HSR_DIVISOR_AUTO ∧ cfg.divisor ≠ NOT_SET then
    (-EINVAL, s)
  else
    let s1 :=
      if cfg.mode ≠ NOT_SET ∧ cfg.flow ≠ NOT_SET then
        hsi_outl (cfg.mode ||| u32 ((cfg.flow &&& K.HSI_FLOW_VAL_MASK) <<< K.HSI_FLOW_OFFSET))
          (Reg.HSI_HSR_MODE_REG port) s
      else s
    let s2 :=
      if cfg.frame_size ≠ NOT_SET then
        hsi_outl cfg.frame_size (Reg.HSI_HSR_FRAMESIZE_REG port) s1
      else s1
    if cfg.channels ≠ NOT_SET then
      if (cfg.channels &&& u32 (4294967296 - cfg.channels)) ^^^ cfg.channels ≠ 0 then
        (-EINVAL, s2)
      else
        hsi_set_rx_divisor K cfg.divisor (hsi_outl cfg.channels (Reg.HSI_HSR_CHANNELS_REG port) s2)
    else
      hsi_set_rx_divisor K cfg.divisor s2

/-- The function `hsi_set_rx` (lines 86-146). -/
def hsi_set_rx (K : Consts) (cfg : hsr_ctx) (s : Sys) : Int × Sys :=
  if cfg.mode &&& K.HSI_MODE_VAL_MASK ≠ K.HSI_MODE_STREAM ∧
      cfg.mode &&& K.HSI_MODE_VAL_MASK ≠ K.HSI_MODE_FRAME ∧
      cfg.mode &&& K.HSI_MODE_VAL_MASK ≠ K.HSI_MODE_SLEEP ∧
      cfg.mode ≠ NOT_SET then
    (-EINVAL, s)
  else if s.st.is_hsi then
    if cfg.flow &&& K.HSI_FLOW_VAL_MASK ≠ K.HSI_FLOW_SYNCHRONIZED ∧
        cfg.flow &&& K.HSI_FLOW_VAL_MASK ≠ K.HSI_FLOW_PIPELINED ∧
        cfg.flow ≠ NOT_SET then
      (-EINVAL, s)
    else if cfg.frame_size ≠ K.HSI_FRAMESIZE_MAX ∧ cfg.frame_size ≠ NOT_SET then
      (-EINVAL, s)
    else hsi_set_rx_tail K cfg s
  else
    if cfg.flow &&& K.HSI_FLOW_VAL_MASK ≠ K.HSI_FLOW_SYNCHRONIZED ∧ cfg.flow ≠ NOT_SET then
      (-EINVAL, s)
    else if cfg.frame_size ≠ K.HSI_FRAMESIZE_MAX ∧ cfg.frame_size ≠ NOT_SET then
      (-EINVAL, s)
    else hsi_set_rx_tail K cfg s

/-- Lines 197-231 of `hsi_set_tx`: channel range, divisor and arbitration checks,
then the register writes with the single-bit check of the channel mask in between. -/
def hsi_set_tx_tail (K : Consts) (cfg : hst_ctx) (s : Sys) : Int × Sys :=
  let port := s.st.port.port_number
  let max_divisor := if s.st.is_hsi then K.HSI_MAX_TX_DIVISOR else K.HSI_SSI_MAX_TX_DIVISOR
  if cfg.channels = 0 ∨ (cfg.channels > s.st.port.max_ch ∧ cfg.channels ≠ NOT_SET) then
    (-EINVAL, s)
  else if cfg.divisor > max_divisor ∧ cfg.divisor ≠ NOT_SET then
    (-EINVAL, s)
  else if cfg.arb_mode ≠ K.HSI_ARBMODE_ROUNDROBIN ∧ cfg.arb_mode ≠ K.HSI_ARBMODE_PRIORITY ∧
      cfg.mode ≠ NOT_SET then
    (-EINVAL, s)
  else
    let s1 :=
      if cfg.mode ≠ NOT_SET ∧ cfg.flow ≠ NOT_SET then
        hsi_outl
          (cfg.mode ||| u32 ((cfg.flow &&& K.HSI_FLOW_VAL_MASK) <<< K.HSI_FLOW_OFFSET) |||
            K.HSI_HST_MODE_WAKE_CTRL_SW)
          (Reg.HSI_HST_MODE_REG port) s
      else s
    let s2 :=
      if cfg.frame_size ≠ NOT_SET then
        hsi_outl cfg.frame_size (Reg.HSI_HST_FRAMESIZE_REG port) s1
      else s1
    if cfg.channels ≠ NOT_SET ∧
        (cfg.channels &&& u32 (4294967296 - cfg.channels)) ^^^ cfg.channels ≠ 0 then
      (-EINVAL, s2)
    else
      let s3 :=
        if cfg.channels ≠ NOT_SET then
          hsi_outl cfg.channels (Reg.HSI_HST_CHANNELS_REG port) s2
        else s2
      let s4 :=
        if cfg.divisor ≠ NOT_SET then
          hsi_outl cfg.divisor (Reg.HSI_HST_DIVISOR_REG port) s3
        else s3
      let s5 :=
        if cfg.arb_mode ≠ NOT_SET then
          hsi_outl cfg.arb_mode (Reg.HSI_HST_ARBMODE_REG port) s4
        else s4
      (0, s5)

/-- The function `hsi_set_tx` (lines 164-232). -/
def hsi_set_tx (K : Consts) (cfg : hst_ctx) (s : Sys) : Int × Sys :=
  if cfg.mode &&& K.HSI_MODE_VAL_MASK ≠ K.HSI_MODE_STREAM ∧
      cfg.mode &&& K.HSI_MODE_VAL_MASK ≠ K.HSI_MODE_FRAME ∧
      cfg.mode ≠ NOT_SET then
    (-EINVAL, s)
  else if s.st.is_hsi then
    if cfg.flow &&& K.HSI_FLOW_VAL_MASK ≠ K.HSI_FLOW_SYNCHRONIZED ∧
        cfg.flow &&& K.HSI_FLOW_VAL_MASK ≠ K.HSI_FLOW_PIPELINED ∧
        cfg.flow ≠ NOT_SET then
      (-EINVAL, s)
    else if cfg.frame_size ≠ K.HSI_FRAMESIZE_MAX ∧ cfg.frame_size ≠ NOT_SET then
      (-EINVAL, s)
    else hsi_set_tx_tail K cfg s
  else
    if cfg.flow &&& K.HSI_FLOW_VAL_MASK ≠ K.HSI_FLOW_SYNCHRONIZED ∧ cfg.flow ≠ NOT_SET then
      (-EINVAL, s)
    else if cfg.frame_size > K.HSI_FRAMESIZE_MAX ∧ cfg.frame_size ≠ NOT_SET then
      (-EINVAL, s)
    else hsi_set_tx_tail K cfg s

/-- Modelled from the spec: `hsi_outl_or` is an inline helper of a header that is not
among the sources.  §4.2 has `open` enable the wake-detect, error and break events in
the interrupt mask, keeping what is enabled already: the register is read, the given
bits are OR-ed in, and the result is written back. -/
def hsi_outl_or (data : Nat) (r : Reg) (s : Sys) : Sys :=
  let t := hsi_inl r s
  hsi_outl (t.1 ||| data) r t.2

/-- Modelled from the spec: `hsi_clocks_enable_channel` is defined in another file of
the driver.  §5 describes a nestable, reference-counted clock scope; an acquisition
adds one reference. -/
def hsi_clocks_enable_channel (ch : Nat) (s : Sys) : Sys :=
  { st := { s.st with clk := s.st.clk + 1 },
    trace := s.trace ++ [Event.clocks_enable ch] }

/-- Modelled from the spec: `hsi_clocks_disable_channel` is defined in another file of
the driver.  A release of the clock scope of §5 drops one reference. -/
def hsi_clocks_disable_channel (ch : Nat) (s : Sys) : Sys :=
  { st := { s.st with clk := s.st.clk - 1 },
    trace := s.trace ++ [Event.clocks_disable ch] }

/-- The transfer backends called by `hsi_write` and `hsi_read`.  They are defined in
other files of the driver; here they are arbitrary functions of the channel number,
the buffer, (for the block-transfer path) the word count, and the whole controller
state, returning a status and a new state. -/
structure Backends where
  hsi_driver_enable_write_interrupt : Nat → Nat → State → Int × State
  hsi_driver_write_dma : Nat → Nat → Nat → State → Int × State
  hsi_driver_enable_read_interrupt : Nat → Nat → State → Int × State
  hsi_driver_read_dma : Nat → Nat → Nat → State → Int × State

/-- A call of an external function `g` on channel `ch`, recorded in the trace. -/
def Sys.invoke (s : Sys) (f : Extern) (ch : Nat) (g : State → Int × State) : Int × Sys :=
  ((g s.st).1, { st := (g s.st).2, trace := s.trace ++ [Event.call f ch] })

/-- The function `hsi_open` (lines 255-304).  The device handle is `none` when `dev`
or `dev->ch` is `NULL`, and the channel number otherwise. -/
def hsi_open (K : Consts) (dev : Option Nat) (s : Sys) : Int × Sys :=
  match dev with
  | none => (-EINVAL, s)
  | some n =>
    if (s.st.chans n).read_done = false ∨ (s.st.chans n).write_done = false then
      (-EINVAL, s)
    else
      let s1 := hsi_clocks_enable_channel n s
      if (s1.st.chans n).flags.HSI_CH_OPEN then
        (-EBUSY, s1)
      else
        let s2 : Sys :=
          { s1 with st := (s1.st.setCh n
              (fun ch => { ch with flags := { ch.flags with HSI_CH_OPEN := true } })) }
        let s3 := hsi_outl_or
          (K.HSI_CAWAKEDETECTED ||| K.HSI_ERROROCCURED ||| K.HSI_BREAKDETECTED)
          (Reg.HSI_SYS_MPU_ENABLE_REG s2.st.port.port_number s2.st.port.n_irq) s2
        (0, hsi_clocks_disable_channel n s3)

/-- Lines 349-351 of `hsi_write`: the request is installed in the write descriptor. -/
def hsi_write_install (n addr size : Nat) (s : Sys) : Sys :=
  { s with st := (s.st.setCh n
      (fun ch => { ch with write_data := { addr := addr, size := size, lch := -1 } })) }

/-- Lines 353-356 of `hsi_write`: the backend is chosen by the word count. -/
def hsi_write_dispatch (B : Backends) (n addr size : Nat) (s : Sys) : Int × Sys :=
  if size = 1 then
    s.invoke Extern.hsi_driver_enable_write_interrupt n
      (B.hsi_driver_enable_write_interrupt n addr)
  else
    s.invoke Extern.hsi_driver_write_dma n (B.hsi_driver_write_dma n addr size)

/-- The function `hsi_write` (lines 318-365). -/
def hsi_write (B : Backends) (dev : Option Nat) (addr size : Nat) (s : Sys) : Int × Sys :=
  match dev with
  | none => (-EINVAL, s)
  | some n =>
    if addr = 0 ∨ size = 0 then (-EINVAL, s)
    else if (s.st.chans n).flags.HSI_CH_OPEN = false then (-EINVAL, s)
    else if (s.st.chans n).write_data.addr ≠ 0 then (-EINVAL, s)
    else
      let r := hsi_write_dispatch B n addr size (hsi_write_install n addr size s)
      if r.1 < 0 then
        (r.1, { r.2 with st := (r.2.st.setCh n
            (fun ch => { ch with write_data := { ch.write_data with addr := 0, size := 0 } })) })
      else r

/-- Lines 409-411 of `hsi_read`: the request is installed in the read descriptor. -/
def hsi_read_install (n addr size : Nat) (s : Sys) : Sys :=
  { s with st := (s.st.setCh n
      (fun ch => { ch with read_data := { addr := addr, size := size, lch := -1 } })) }

/-- Lines 413-416 of `hsi_read`: the backend is chosen by the word count. -/
def hsi_read_dispatch (B : Backends) (n addr size : Nat) (s : Sys) : Int × Sys :=
  if size = 1 then
    s.invoke Extern.hsi_driver_enable_read_interrupt n
      (B.hsi_driver_enable_read_interrupt n addr)
  else
    s.invoke Extern.hsi_driver_read_dma n (B.hsi_driver_read_dma n addr size)

/-- The function `hsi_read` (lines 379-426). -/
def hsi_read (B : Backends) (dev : Option Nat) (addr size : Nat) (s : Sys) : Int × Sys :=
  match dev with
  | none => (-EINVAL, s)
  | some n =>
    if addr = 0 ∨ size = 0 then (-EINVAL, s)
    else if (s.st.chans n).flags.HSI_CH_OPEN = false then (-EINVAL, s)
    else if (s.st.chans n).read_data.addr ≠ 0 then (-EINVAL, s)
    else
      let r := hsi_read_dispatch B n addr size (hsi_read_install n addr size s)
      if r.1 < 0 then
        (r.1, { r.2 with st := (r.2.st.setCh n
            (fun ch => { ch with read_data := { ch.read_data with addr := 0, size := 0 } })) })
      else r

/-- Modelled from the spec: the cancel backends `hsi_driver_cancel_write_interrupt`
and `hsi_driver_cancel_write_dma` are defined in other files of the driver.  §4.3
says a cancel "clear[s] the descriptor": no buffer, no words, no backend handle. -/
def cancel_write_backend (f : Extern) (n : Nat) (s : Sys) : Sys :=
  { st := s.st.setCh n (fun ch => { ch with write_data := { addr := 0, size := 0, lch := -1 } }),
    trace := s.trace ++ [Event.call f n] }

/-- Modelled from the spec: the cancel backends `hsi_driver_cancel_read_interrupt`
and `hsi_driver_cancel_read_dma` are defined in other files of the driver.  §4.3
says a cancel "clear[s] the descriptor": no buffer, no words, no backend handle. -/
def cancel_read_backend (f : Extern) (n : Nat) (s : Sys) : Sys :=
  { st := s.st.setCh n (fun ch => { ch with read_data := { addr := 0, size := 0, lch := -1 } }),
    trace := s.trace ++ [Event.call f n] }

/-- The function `__hsi_write_cancel` (lines 429-435). -/
def __hsi_write_cancel (n : Nat) (s : Sys) : Sys :=
  if (s.st.chans n).write_data.size = 1 then
    cancel_write_backend Extern.hsi_driver_cancel_write_interrupt n s
  else if (s.st.chans n).write_data.size > 1 then
    cancel_write_backend Extern.hsi_driver_cancel_write_dma n s
  else s

/-- The function `__hsi_read_cancel` (lines 468-474). -/
def __hsi_read_cancel (n : Nat) (s : Sys) : Sys :=
  if (s.st.chans n).read_data.size = 1 then
    cancel_read_backend Extern.hsi_driver_cancel_read_interrupt n s
  else if (s.st.chans n).read_data.size > 1 then
    cancel_read_backend Extern.hsi_driver_cancel_read_dma n s
  else s

/-- The function `hsi_write_cancel` (lines 443-465). -/
def hsi_write_cancel (dev : Option Nat) (s : Sys) : Sys :=
  match dev with
  | none => s
  | some n =>
    if (s.st.chans n).flags.HSI_CH_OPEN = false then s
    else hsi_clocks_disable_channel n (__hsi_write_cancel n (hsi_clocks_enable_channel n s))

/-- The function `hsi_read_cancel` (lines 482-504). -/
def hsi_read_cancel (dev : Option Nat) (s : Sys) : Sys :=
  match dev with
  | none => s
  | some n =>
    if (s.st.chans n).flags.HSI_CH_OPEN = false then s
    else hsi_clocks_disable_channel n (__hsi_read_cancel n (hsi_clocks_enable_channel n s))

/-- The function `hsi_close` (lines 835-860). -/
def hsi_close (dev : Option Nat) (s : Sys) : Sys :=
  match dev with
  | none => s
  | some n =>
    let s1 := hsi_clocks_enable_channel n s
    let s2 :=
      if (s1.st.chans n).flags.HSI_CH_OPEN then
        let s3 : Sys :=
          { s1 with st := (s1.st.setCh n
              (fun ch => { ch with flags := { ch.flags with HSI_CH_OPEN := false } })) }
        __hsi_read_cancel n (__hsi_write_cancel n s3)
      else s1
    hsi_clocks_disable_channel n s2

/-- The function `hsi_get_rx` (lines 148-162): the configuration read back into
`cfg`. -/
def hsi_get_rx (K : Consts) (cfg : hsr_ctx) (s : Sys) : hsr_ctx × Sys :=
  let port := s.st.port.port_number
  let r1 := hsi_inl (Reg.HSI_HSR_MODE_REG port) s
  let c1 := { cfg with mode := r1.1 &&& K.HSI_MODE_VAL_MASK }
  let r2 := hsi_inl (Reg.HSI_HSR_MODE_REG port) r1.2
  let c2 := { c1 with flow := (r2.1 &&& K.HSI_FLOW_VAL_MASK) >>> K.HSI_FLOW_OFFSET }
  let r3 := hsi_inl (Reg.HSI_HSR_FRAMESIZE_REG port) r2.2
  let c3 := { c2 with frame_size := r3.1 }
  let r4 := hsi_inl (Reg.HSI_HSR_CHANNELS_REG port) r3.2
  let c4 := { c3 with channels := r4.1 }
  if s.st.is_hsi then
    let r5 := hsi_inl (Reg.HSI_HSR_DIVISOR_REG port) r4.2
    ({ c4 with divisor := r5.1 }, r5.2)
  else (c4, r4.2)

/-- The function `hsi_get_tx` (lines 234-247): the configuration read back into
`cfg`. -/
def hsi_get_tx (K : Consts) (cfg : hst_ctx) (s : Sys) : hst_ctx × Sys :=
  let port := s.st.port.port_number
  let r1 := hsi_inl (Reg.HSI_HST_MODE_REG port) s
  let c1 := { cfg with mode := r1.1 &&& K.HSI_MODE_VAL_MASK }
  let r2 := hsi_inl (Reg.HSI_HST_MODE_REG port) r1.2
  let c2 := { c1 with flow := (r2.1 &&& K.HSI_FLOW_VAL_MASK) >>> K.HSI_FLOW_OFFSET }
  let r3 := hsi_inl (Reg.HSI_HST_FRAMESIZE_REG port) r2.2
  let c3 := { c2 with frame_size := r3.1 }
  let r4 := hsi_inl (Reg.HSI_HST_CHANNELS_REG port) r3.2
  let c4 := { c3 with channels := r4.1 }
  let r5 := hsi_inl (Reg.HSI_HST_DIVISOR_REG port) r4.2
  let c5 := { c4 with divisor := r5.1 }
  let r6 := hsi_inl (Reg.HSI_HST_ARBMODE_REG port) r5.2
  ({ c5 with arb_mode := r6.1 }, r6.2)

/-- The function `hsi_poll` (lines 515-549). -/
def hsi_poll (B : Backends) (dev : Option Nat) (s : Sys) : Int × Sys :=
  match dev with
  | none => (-EINVAL, s)
  | some n =>
    if (s.st.chans n).flags.HSI_CH_OPEN = false then (-EINVAL, s)
    else
      let s1 := hsi_clocks_enable_channel n s
      let s2 : Sys :=
        { s1 with st := (s1.st.setCh n
            (fun ch => { ch with flags := { ch.flags with HSI_CH_RX_POLL := true } })) }
      let r := s2.invoke Extern.hsi_driver_enable_read_interrupt n
        (B.hsi_driver_enable_read_interrupt n 0)
      (r.1, hsi_clocks_disable_channel n r.2)

/-- The commands of `hsi_ioctl`: the twelve case labels of the switch (lines 589-820)
and `other` for every code that is none of them. -/
inductive Cmd where
  | HSI_IOCTL_ACWAKE_UP
  | HSI_IOCTL_ACWAKE_DOWN
  | HSI_IOCTL_SEND_BREAK
  | HSI_IOCTL_GET_ACWAKE
  | HSI_IOCTL_FLUSH_RX
  | HSI_IOCTL_FLUSH_TX
  | HSI_IOCTL_GET_CAWAKE
  | HSI_IOCTL_SET_RX
  | HSI_IOCTL_GET_RX
  | HSI_IOCTL_SET_TX
  | HSI_IOCTL_GET_TX
  | HSI_IOCTL_SW_RESET
  | other (code : Nat)
deriving DecidableEq, Repr

/-- The argument `void *arg` of `hsi_ioctl`: `NULL`, or a pointer to a word, to an RX
configuration or to a TX configuration, given by the object pointed to. -/
inductive Arg where
  | null
  | word (v : Nat)
  | rx (cfg : hsr_ctx)
  | tx (cfg : hst_ctx)
deriving DecidableEq, Repr

/-- What `hsi_ioctl` takes from outside the file: the wake-bit macros of the absent
header, the two reset functions defined in another file of the driver, and the value
the hardware wake register takes after a write of `v` to the set-wake (clear-wake)
register, as a function of its value `w` before. -/
structure Env where
  HSI_WAKE : Nat → Nat
  HSI_SET_WAKE : Nat → Nat
  HSI_CLEAR_WAKE : Nat → Nat
  hsi_softreset : State → Int × State
  hsi_softreset_driver : State → State
  wake_after_set : (w v : Nat) → Nat
  wake_after_clear : (w v : Nat) → Nat

/-- A change of a register value made by the device itself; it leaves no trace entry. -/
def Sys.deviceSet (s : Sys) (r : Reg) (v : Nat) : Sys :=
  { s with st := { s.st with regs := Function.update s.st.regs r v } }

/-- Modelled from the spec: `hsi_get_cawake` is defined in another file of the driver.
§6 lists it as the query of the peer's physical wake-evidence level. -/
def hsi_get_cawake (s : Sys) : Nat × Sys :=
  (s.st.cawake_level, { s with trace := s.trace ++ [Event.get_cawake] })

/-- Modelled from the spec: `cancel_work_sync` on the port's deferred task.  §9 has the
task expose "attempt cancel, did it stop": the attempt succeeds exactly when the task
is queued, and the task is not queued afterwards. -/
def cancel_work_sync (s : Sys) : Bool × Sys :=
  (s.st.hsi_work_pending,
   { st := { s.st with hsi_work_pending := false },
     trace := s.trace ++ [Event.cancel_work_sync] })

/-- The case `HSI_IOCTL_ACWAKE_UP` of `hsi_ioctl` (lines 590-610). -/
def hsi_ioctl_acwake_up (E : Env) (channel : Nat) (s : Sys) : Sys :=
  let port := s.st.port.port_number
  let s1 := hsi_clocks_enable_channel channel s
  let s2 : Sys :=
    { s1 with st := (s1.st.setCh channel
        (fun ch => { ch with flags := { ch.flags with HSI_CH_ACWAKE := true } })) }
  let s3 : Sys :=
    { s2 with st := { s2.st with acwake_status := s2.st.acwake_status ||| BIT channel } }
  let r := hsi_inl (Reg.HSI_SYS_WAKE_REG port) s3
  if r.1 &&& E.HSI_WAKE channel = 0 then
    let s4 := hsi_outl (E.HSI_SET_WAKE channel) (Reg.HSI_SYS_SET_WAKE_REG port) r.2
    s4.deviceSet (Reg.HSI_SYS_WAKE_REG port)
      (E.wake_after_set (s4.st.regs (Reg.HSI_SYS_WAKE_REG port)) (E.HSI_SET_WAKE channel))
  else r.2

/-- Lines 643-688 of `hsi_ioctl`, case `HSI_IOCTL_ACWAKE_DOWN`: the clock release that
depends on the remaining claims, the peer evidence snapshot and the cancellation. -/
def hsi_ioctl_acwake_down_release (channel : Nat) (s : Sys) : Sys :=
  if s.st.acwake_status = 0 then
    if s.st.cawake_status = 0 then
      let c := cancel_work_sync s
      if c.1 then hsi_clocks_disable_channel channel c.2 else c.2
    else s
  else hsi_clocks_disable_channel channel s

/-- Lines 620-639 of `hsi_ioctl`, case `HSI_IOCTL_ACWAKE_DOWN`: clock acquisition,
snapshot of the peer evidence, read of the wake register, reconciliation of the bitmap
with it, and clearing of the flag and the bitmap bit of the channel.  The result is
the wake register value read and the new state. -/
def hsi_ioctl_acwake_down_prep (K : Consts) (channel : Nat) (s : Sys) : Nat × Sys :=
  let port := s.st.port.port_number
  let s1 := hsi_clocks_enable_channel channel s
  let g := hsi_get_cawake s1
  let s2 : Sys := { g.2 with st := { g.2.st with cawake_status := g.1 } }
  let r := hsi_inl (Reg.HSI_SYS_WAKE_REG port) s2
  let s3 : Sys :=
    if r.2.st.acwake_status ≠ r.1 &&& K.HSI_WAKE_MASK then
      { r.2 with st := { r.2.st with acwake_status := r.1 &&& K.HSI_WAKE_MASK } }
    else r.2
  let s4 : Sys :=
    { s3 with st := (s3.st.setCh channel
        (fun ch => { ch with flags := { ch.flags with HSI_CH_ACWAKE := false } })) }
  (r.1, { s4 with st := { s4.st with
    acwake_status := s4.st.acwake_status &&& not32 (BIT channel) } })

/-- Lines 690-694 of `hsi_ioctl`, case `HSI_IOCTL_ACWAKE_DOWN`: the wake line of the
channel is released if the wake register value read before had its bit. -/
def hsi_ioctl_acwake_down_clear (E : Env) (channel wake : Nat) (s : Sys) : Sys :=
  let port := s.st.port.port_number
  if wake &&& E.HSI_WAKE channel ≠ 0 then
    let s1 := hsi_outl (E.HSI_CLEAR_WAKE channel) (Reg.HSI_SYS_CLEAR_WAKE_REG port) s
    s1.deviceSet (Reg.HSI_SYS_WAKE_REG port)
      (E.wake_after_clear (s1.st.regs (Reg.HSI_SYS_WAKE_REG port)) (E.HSI_CLEAR_WAKE channel))
  else s

/-- The case `HSI_IOCTL_ACWAKE_DOWN` of `hsi_ioctl` (lines 611-705). -/
def hsi_ioctl_acwake_down (K : Consts) (E : Env) (channel : Nat) (s : Sys) : Sys :=
  let p := hsi_ioctl_acwake_down_prep K channel s
  let s1 := hsi_ioctl_acwake_down_release channel p.2
  let s2 := hsi_ioctl_acwake_down_clear E channel p.1 s1
  hsi_clocks_disable_channel channel s2

/-- The case `HSI_IOCTL_GET_ACWAKE` of `hsi_ioctl` (lines 715-725). -/
def hsi_ioctl_get_acwake (channel : Nat) (arg : Arg) (s : Sys) : Option (Int × Arg × Sys) :=
  match arg with
  | Arg.null => some (-EINVAL, arg, s)
  | Arg.word _ =>
    let r := hsi_inl (Reg.HSI_SYS_WAKE_REG s.st.port.port_number)
      (hsi_clocks_enable_channel channel s)
    some (0, Arg.word r.1, hsi_clocks_disable_channel channel r.2)
  | Arg.rx _ => none
  | Arg.tx _ => none

/-- Lines 749-753 of `hsi_ioctl`, case `HSI_IOCTL_GET_CAWAKE`: the evidence level is
stored through `arg`. -/
def hsi_ioctl_get_cawake_store (channel : Nat) (arg : Arg) (s : Sys) :
    Option (Int × Arg × Sys) :=
  match arg with
  | Arg.word _ =>
    let g := hsi_get_cawake (hsi_clocks_enable_channel channel s)
    some (0, Arg.word g.1, hsi_clocks_disable_channel channel g.2)
  | Arg.null => none
  | Arg.rx _ => none
  | Arg.tx _ => none

/-- The case `HSI_IOCTL_GET_CAWAKE` of `hsi_ioctl` (lines 740-754). -/
def hsi_ioctl_get_cawake (channel : Nat) (arg : Arg) (s : Sys) : Option (Int × Arg × Sys) :=
  if arg = Arg.null then some (-EINVAL, arg, s)
  else if s.st.port.cawake_gpio < 0 then some (-ENODEV, arg, s)
  else hsi_ioctl_get_cawake_store channel arg s

/-- The case `HSI_IOCTL_SET_RX` of `hsi_ioctl` (lines 755-767). -/
def hsi_ioctl_set_rx (K : Consts) (channel : Nat) (arg : Arg) (s : Sys) :
    Option (Int × Arg × Sys) :=
  match arg with
  | Arg.null => some (-EINVAL, arg, s)
  | Arg.rx cfg =>
    let r := hsi_set_rx K cfg (hsi_clocks_enable_channel channel s)
    some (r.1, arg, hsi_clocks_disable_channel channel r.2)
  | Arg.word _ => none
  | Arg.tx _ => none

/-- The case `HSI_IOCTL_GET_RX` of `hsi_ioctl` (lines 768-780). -/
def hsi_ioctl_get_rx (K : Consts) (channel : Nat) (arg : Arg) (s : Sys) :
    Option (Int × Arg × Sys) :=
  match arg with
  | Arg.null => some (-EINVAL, arg, s)
  | Arg.rx cfg =>
    let r := hsi_get_rx K cfg (hsi_clocks_enable_channel channel s)
    some (0, Arg.rx r.1, hsi_clocks_disable_channel channel r.2)
  | Arg.word _ => none
  | Arg.tx _ => none

/-- The case `HSI_IOCTL_SET_TX` of `hsi_ioctl` (lines 781-793). -/
def hsi_ioctl_set_tx (K : Consts) (channel : Nat) (arg : Arg) (s : Sys) :
    Option (Int × Arg × Sys) :=
  match arg with
  | Arg.null => some (-EINVAL, arg, s)
  | Arg.tx cfg =>
    let r := hsi_set_tx K cfg (hsi_clocks_enable_channel channel s)
    some (r.1, arg, hsi_clocks_disable_channel channel r.2)
  | Arg.word _ => none
  | Arg.rx _ => none

/-- The case `HSI_IOCTL_GET_TX` of `hsi_ioctl` (lines 794-806). -/
def hsi_ioctl_get_tx (K : Consts) (channel : Nat) (arg : Arg) (s : Sys) :
    Option (Int × Arg × Sys) :=
  match arg with
  | Arg.null => some (-EINVAL, arg, s)
  | Arg.tx cfg =>
    let r := hsi_get_tx K cfg (hsi_clocks_enable_channel channel s)
    some (0, Arg.tx r.1, hsi_clocks_disable_channel channel r.2)
  | Arg.word _ => none
  | Arg.rx _ => none

/-- The case `HSI_IOCTL_SW_RESET` of `hsi_ioctl` (lines 807-820). -/
def hsi_ioctl_sw_reset (E : Env) (channel : Nat) (arg : Arg) (s : Sys) :
    Option (Int × Arg × Sys) :=
  let s1 := hsi_clocks_enable_channel channel s
  let r := s1.invoke Extern.hsi_softreset channel E.hsi_softreset
  let s2 : Sys :=
    { st := E.hsi_softreset_driver r.2.st,
      trace := r.2.trace ++ [Event.call Extern.hsi_softreset_driver channel] }
  some (r.1, arg, hsi_clocks_disable_channel channel s2)

/-- The switch of `hsi_ioctl` (lines 589-824). -/
def hsi_ioctl_switch (K : Consts) (E : Env) (channel : Nat) (command : Cmd) (arg : Arg)
    (s : Sys) : Option (Int × Arg × Sys) :=
  match command with
  | Cmd.HSI_IOCTL_ACWAKE_UP => some (0, arg, hsi_ioctl_acwake_up E channel s)
  | Cmd.HSI_IOCTL_ACWAKE_DOWN => some (0, arg, hsi_ioctl_acwake_down K E channel s)
  | Cmd.HSI_IOCTL_SEND_BREAK =>
    some (0, arg, hsi_clocks_disable_channel channel
      (hsi_outl 1 (Reg.HSI_HST_BREAK_REG s.st.port.port_number)
        (hsi_clocks_enable_channel channel s)))
  | Cmd.HSI_IOCTL_GET_ACWAKE => hsi_ioctl_get_acwake channel arg s
  | Cmd.HSI_IOCTL_FLUSH_RX =>
    some (0, arg, hsi_clocks_disable_channel channel
      (hsi_outl 0 (Reg.HSI_HSR_RXSTATE_REG s.st.port.port_number)
        (hsi_clocks_enable_channel channel s)))
  | Cmd.HSI_IOCTL_FLUSH_TX =>
    some (0, arg, hsi_clocks_disable_channel channel
      (hsi_outl 0 (Reg.HSI_HST_TXSTATE_REG s.st.port.port_number)
        (hsi_clocks_enable_channel channel s)))
  | Cmd.HSI_IOCTL_GET_CAWAKE => hsi_ioctl_get_cawake channel arg s
  | Cmd.HSI_IOCTL_SET_RX => hsi_ioctl_set_rx K channel arg s
  | Cmd.HSI_IOCTL_GET_RX => hsi_ioctl_get_rx K channel arg s
  | Cmd.HSI_IOCTL_SET_TX => hsi_ioctl_set_tx K channel arg s
  | Cmd.HSI_IOCTL_GET_TX => hsi_ioctl_get_tx K channel arg s
  | Cmd.HSI_IOCTL_SW_RESET => hsi_ioctl_sw_reset E channel arg s
  | Cmd.other _ => some (-ENOIOCTLCMD, arg, s)

/-- The function `hsi_ioctl` (lines 562-828).  The result is the returned status, the
object `arg` points to after the call, and the new state; it is `none` when the
command dereferences `arg` and `arg` does not point to an object of the type the
command expects. -/
def hsi_ioctl (K : Consts) (E : Env) (dev : Option Nat) (command : Cmd) (arg : Arg) (s : Sys) :
    Option (Int × Arg × Sys) :=
  match dev with
  | none => some (-EINVAL, arg, s)
  | some channel =>
    if (s.st.chans channel).flags.HSI_CH_OPEN = false then some (-EINVAL, arg, s)
    else hsi_ioctl_switch K E channel command arg s

/-! ## Concrete states used for evaluations -/

/-- A closed channel with both completion callbacks registered and nothing pending. -/
def ch0 : hsi_channel :=
  { flags := { HSI_CH_OPEN := false, HSI_CH_RX_POLL := false, HSI_CH_ACWAKE := false },
    read_data := { addr := 0, size := 0, lch := -1 },
    write_data := { addr := 0, size := 0, lch := -1 },
    read_done := true, write_done := true, port_event := false }

/-- An extended-variant controller: port 1 with a limit of 8 channels, counters
active, all registers zero, all channels as `ch0`. -/
def st0 : State :=
  { is_hsi := true, regs := fun _ => 0, acwake_status := 0, cawake_status := 0,
    port := { port_number := 1, max_ch := 8, n_irq := 0, cawake_gpio := -1,
              counters_on := 1, reg_counters := 0 },
    chans := fun _ => ch0, clk := 0, cawake_level := 0, hsi_work_pending := false }

/-- The state `st0` with an empty trace. -/
def sys0 : Sys := { st := st0, trace := [] }

/-- An RX configuration whose fields are all valid for `omap4` and `st0` except the
channel mask, which has two bits set: mode FRAME, flow SYNCHRONIZED, frame size 31,
channel mask 3, divisor unchanged. -/
def rx_cfg_mask3 : hsr_ctx :=
  { mode := 2, flow := 0, frame_size := 31, channels := 3, divisor := NOT_SET }

/-- The TX counterpart of `rx_cfg_mask3`, with round-robin arbitration. -/
def tx_cfg_mask3 : hst_ctx :=
  { mode := 2, flow := 0, frame_size := 31, channels := 3, divisor := NOT_SET, arb_mode := 0 }

/-- The RX configuration that specifies the channel mask `c` and leaves every other
field unchanged. -/
def rx_cfg_channels (c : Nat) : hsr_ctx :=
  { mode := NOT_SET, flow := NOT_SET, frame_size := NOT_SET, channels := c, divisor := NOT_SET }

/-- The channel `ch0` opened. -/
def ch_open : hsi_channel :=
  { ch0 with flags := { ch0.flags with HSI_CH_OPEN := true } }

/-- The state `sys0` with every channel open and nothing pending. -/
def sys_open : Sys := { st := { st0 with chans := fun _ => ch_open }, trace := [] }

/-- The state `sys0` with every channel open and an 8-word write and a 1-word read
pending. -/
def sys_busy : Sys :=
  { st := { st0 with chans := fun _ =>
      { ch_open with write_data := { addr := 4096, size := 8, lch := 3 },
                     read_data := { addr := 8192, size := 1, lch := -1 } } },
    trace := [] }

/-- The state `sys0` with every channel closed although an 8-word write is recorded
as pending. -/
def sys_closed_pending : Sys :=
  { st := { st0 with chans := fun _ =>
      { ch0 with write_data := { addr := 4096, size := 8, lch := 3 } } },
    trace := [] }

/-- Backends that accept every request and leave the state alone. -/
def backends_ok : Backends :=
  { hsi_driver_enable_write_interrupt := fun _ _ st => (0, st),
    hsi_driver_write_dma := fun _ _ _ st => (0, st),
    hsi_driver_enable_read_interrupt := fun _ _ st => (0, st),
    hsi_driver_read_dma := fun _ _ _ st => (0, st) }

/-- Backends that refuse every request with status `-16` and leave the state alone. -/
def backends_fail : Backends :=
  { hsi_driver_enable_write_interrupt := fun _ _ st => (-16, st),
    hsi_driver_write_dma := fun _ _ _ st => (-16, st),
    hsi_driver_enable_read_interrupt := fun _ _ st => (-16, st),
    hsi_driver_read_dma := fun _ _ _ st => (-16, st) }

/-- The state `sys0` with the value 85 in the RX counter register of port 1. -/
def sys_counters : Sys :=
  { st := { st0 with regs := fun r => if r = Reg.HSI_HSR_COUNTERS_REG 1 then 85 else 0 },
    trace := [] }

/-- A basic-variant controller: `st0` with the variant switched. -/
def sys_basic : Sys := { st := { st0 with is_hsi := false }, trace := [] }

/-- The basic-variant controller with counters inactive and 85 in the port shadow. -/
def sys_basic_auto : Sys :=
  { st := { st0 with
      is_hsi := false,
      port := { st0.port with counters_on := 0, reg_counters := 85 } },
    trace := [] }

/-- The wake-bit macros as in the OMAP4 HSI headers, resets that do nothing, and a
wake register that follows the set-wake and clear-wake writes. -/
def omap4_env : Env :=
  { HSI_WAKE := fun c => 1 <<< c,
    HSI_SET_WAKE := fun c => 1 <<< c,
    HSI_CLEAR_WAKE := fun c => 1 <<< c,
    hsi_softreset := fun st => (0, st),
    hsi_softreset_driver := fun st => st,
    wake_after_set := fun w v => w ||| v,
    wake_after_clear := fun w v => w &&& not32 v }

/-- The state `sys_open` in which channel 0 alone holds a wake claim (flag, bitmap bit
and hardware wake bit set), the peer evidence line is high and the deferred task is
queued. -/
def sys_wake_high : Sys :=
  { st := { st0 with
      chans := fun c => if c = 0 then
          { ch_open with flags := { ch_open.flags with HSI_CH_ACWAKE := true } }
        else ch_open,
      acwake_status := 1,
      regs := fun r => if r = Reg.HSI_SYS_WAKE_REG 1 then 1 else 0,
      clk := 1, cawake_level := 1, hsi_work_pending := true },
    trace := [] }

/-- The environment `omap4_env` with a wake register that ignores the set-wake and
clear-wake writes. -/
def omap4_env_deaf : Env :=
  { omap4_env with wake_after_set := fun w _ => w, wake_after_clear := fun w _ => w }

/-- The state `sys_wake_high` with the peer evidence line low. -/
def sys_wake_low : Sys :=
  { sys_wake_high with st := { sys_wake_high.st with cawake_level := 0 } }

/-- The state `sys_wake_low` with the deferred task not queued. -/
def sys_wake_low_idle : Sys :=
  { st := { sys_wake_high.st with cawake_level := 0, hsi_work_pending := false },
    trace := [] }

/-- The TX configuration that specifies the arbitration mode `a` and leaves every
other field unchanged. -/
def tx_cfg_arb (a : Nat) : hst_ctx :=
  { mode := NOT_SET, flow := NOT_SET, frame_size := NOT_SET, channels := NOT_SET,
    divisor := NOT_SET, arb_mode := a }

/-- The TX configuration that specifies mode `m` and flow `f` and leaves every other
field, the arbitration mode included, unchanged. -/
def tx_cfg_mode_flow (m f : Nat) : hst_ctx :=
  { mode := m, flow := f, frame_size := NOT_SET, channels := NOT_SET,
    divisor := NOT_SET, arb_mode := NOT_SET }

/-- The RX configuration that specifies the flow `f` and leaves every other field
unchanged. -/
def rx_cfg_flow (f : Nat) : hsr_ctx :=
  { mode := NOT_SET, flow := f, frame_size := NOT_SET, channels := NOT_SET, divisor := NOT_SET }

/-- The TX configuration that specifies the flow `f` and leaves every other field
unchanged. -/
def tx_cfg_flow (f : Nat) : hst_ctx :=
  { mode := NOT_SET, flow := f, frame_size := NOT_SET, channels := NOT_SET,
    divisor := NOT_SET, arb_mode := NOT_SET }

/-- A wake call of a client: `wake_up` or `wake_down` on a channel. -/
inductive WakeCall where
  | up (c : Nat)
  | down (c : Nat)
deriving DecidableEq, Repr

/-- The channel of a wake call. -/
def WakeCall.ch : WakeCall → Nat
  | WakeCall.up c => c
  | WakeCall.down c => c

/-- The state after one wake call, made through `hsi_ioctl` with a `NULL` argument. -/
def wake_call (K : Consts) (E : Env) (s : Sys) (w : WakeCall) : Sys :=
  match w with
  | WakeCall.up c =>
    match hsi_ioctl K E (some c) Cmd.HSI_IOCTL_ACWAKE_UP Arg.null s with
    | some r => r.2.2
    | none => s
  | WakeCall.down c =>
    match hsi_ioctl K E (some c) Cmd.HSI_IOCTL_ACWAKE_DOWN Arg.null s with
    | some r => r.2.2
    | none => s

/-- The state after a sequence of wake calls. -/
def wake_calls (K : Consts) (E : Env) (s : Sys) (l : List WakeCall) : Sys :=
  l.foldl (wake_call K E) s

/-- The wake state is consistent: the hardware wake register equals the bitmap, the
bitmap lies within the wake mask, and a bitmap bit is set exactly when the wake flag
of the channel with that number is set. -/
def wake_consistent (K : Consts) (s : Sys) : Prop :=
  s.st.regs (Reg.HSI_SYS_WAKE_REG s.st.port.port_number) = s.st.acwake_status ∧
  s.st.acwake_status &&& K.HSI_WAKE_MASK = s.st.acwake_status ∧
  ∀ c : Nat, s.st.acwake_status.testBit c = (s.st.chans c).flags.HSI_CH_ACWAKE

/-- The environment has the wake bit of channel `c` at position `c` in the wake,
set-wake and clear-wake registers, and a wake register that follows the set-wake and
clear-wake writes. -/
def Env.wake_follows (E : Env) : Prop :=
  (∀ c, E.HSI_WAKE c = BIT c) ∧ (∀ c, E.HSI_SET_WAKE c = BIT c) ∧
  (∀ c, E.HSI_CLEAR_WAKE c = BIT c) ∧
  (∀ w v, E.wake_after_set w v = w ||| v) ∧
  (∀ w v, E.wake_after_clear w v = w &&& not32 v)

/-- The state `sys_open` after wake-up on channels 0 and 1: both hold a wake claim,
bitmap and hardware wake register are 3, the clock reference count is 2, the peer
evidence line is low and the deferred task is queued. -/
def sys_wake_two : Sys :=
  { st := { st0 with
      chans := fun c => if c = 0 ∨ c = 1 then
          { ch_open with flags := { ch_open.flags with HSI_CH_ACWAKE := true } }
        else ch_open,
      acwake_status := 3,
      regs := fun r => if r = Reg.HSI_SYS_WAKE_REG 1 then 3 else 0,
      clk := 2, cawake_level := 0, hsi_work_pending := true },
    trace := [] }

/-- The state `sys_wake_two` with a bitmap that disagrees with the hardware wake
register: bit 2 is set in the bitmap only. -/
def sys_wake_mismatch : Sys :=
  { st := { sys_wake_two.st with acwake_status := 7 }, trace := [] }

/-- The RX configuration that specifies mode `m` and flow `f` and leaves every other
field unchanged. -/
def rx_cfg_mode_flow (m f : Nat) : hsr_ctx :=
  { mode := m, flow := f, frame_size := NOT_SET, channels := NOT_SET, divisor := NOT_SET }

/-! ## Auxiliary facts on bit operations -/

theorem land_compl_eq_zero (w c : Nat) (hc : c < 2 ^ w) : c &&& (2 ^ w - (c + 1)) = 0 := by
  apply Nat.eq_of_testBit_eq
  intro i
  rw [Nat.testBit_land, Nat.testBit_two_pow_sub_succ hc]
  cases h : c.testBit i <;> simp

theorem pow_two_of_land_neg (w : Nat) : ∀ c : Nat, 0 < c → c < 2 ^ w →
    c &&& (2 ^ w - c) = c → ∃ k, c = 2 ^ k := by
  induction w with
  | zero => intro c h0 hc; simp at hc; omega
  | succ w ih =>
    intro c h0 hc h
    rcases Nat.even_or_odd' c with ⟨m, hm | hm⟩
    · subst hm
      have h1 : 2 ^ (w + 1) - 2 * m = 2 * (2 ^ w - m) := by rw [pow_succ]; omega
      rw [h1] at h
      have h2 : (2 * m) &&& (2 * (2 ^ w - m)) = 2 * (m &&& (2 ^ w - m)) := by
        have := Nat.land_bit false m false (2 ^ w - m)
        simpa [Nat.bit] using this
      rw [h2] at h
      have hm0 : 0 < m := by omega
      have hmw : m < 2 ^ w := by rw [pow_succ] at hc; omega
      obtain ⟨k, hk⟩ := ih m hm0 hmw (by omega)
      exact ⟨k + 1, by rw [hk, pow_succ]; ring⟩
    · subst hm
      have hmw : m < 2 ^ w := by rw [pow_succ] at hc; omega
      have h1 : 2 ^ (w + 1) - (2 * m + 1) = 2 * (2 ^ w - (m + 1)) + 1 := by
        rw [pow_succ]; omega
      rw [h1] at h
      have h2 : (2 * m + 1) &&& (2 * (2 ^ w - (m + 1)) + 1)
          = 2 * (m &&& (2 ^ w - (m + 1))) + 1 := by
        have := Nat.land_bit true m true (2 ^ w - (m + 1))
        simpa [Nat.bit] using this
      rw [h2, land_compl_eq_zero w m hmw] at h
      exact ⟨0, by omega⟩

theorem land_neg_pow_two (k : Nat) (hk : k < 32) :
    (2 ^ k) &&& (4294967296 - 2 ^ k) = 2 ^ k := by
  interval_cases k <;> decide

/-- The test `(c & -c) ^ c` of lines 138 and 218 is zero exactly for the powers of two,
for a non-zero 32-bit `c`. -/
theorem single_bit_test (c : Nat) (h0 : c ≠ 0) (hc : c < 4294967296) :
    (c &&& u32 (4294967296 - c)) ^^^ c = 0 ↔ ∃ k, c = 2 ^ k := by
  have hu : u32 (4294967296 - c) = 4294967296 - c := by
    unfold u32; omega
  rw [hu, Nat.xor_eq_zero]
  constructor
  · intro h
    exact pow_two_of_land_neg 32 c (by omega) (by norm_num; exact hc) (by norm_num; exact h)
  · rintro ⟨k, rfl⟩
    have hk : k < 32 := by
      by_contra hk
      have : 2 ^ 32 ≤ 2 ^ k := Nat.pow_le_pow_right (by norm_num) (by omega)
      norm_num at this
      omega
    exact land_neg_pow_two k hk

theorem BIT_eq (c : Nat) : BIT c = 2 ^ c := by
  unfold BIT; exact Nat.one_shiftLeft c

theorem testBit_BIT (c i : Nat) : (BIT c).testBit i = decide (c = i) := by
  rw [BIT_eq, Nat.testBit_two_pow]

theorem land_BIT_eq_zero_iff (x c : Nat) : x &&& BIT c = 0 ↔ x.testBit c = false := by
  constructor
  · intro h
    have := congrArg (fun y => Nat.testBit y c) h
    simpa [testBit_BIT] using this
  · intro h
    apply Nat.eq_of_testBit_eq
    intro i
    rw [Nat.testBit_and, testBit_BIT]
    by_cases hi : c = i
    · subst hi; simp [h]
    · simp [hi]

theorem lor_BIT_of_testBit (x c : Nat) (h : x.testBit c = true) : x ||| BIT c = x := by
  apply Nat.eq_of_testBit_eq
  intro i
  rw [Nat.testBit_or, testBit_BIT]
  by_cases hi : c = i
  · subst hi; simp [h]
  · simp [hi]

theorem testBit_not32_BIT (x c i : Nat) (hx : x < 4294967296) :
    (x &&& not32 (BIT c)).testBit i = (x.testBit i && !decide (c = i)) := by
  unfold not32
  rw [Nat.testBit_and, Nat.testBit_xor, testBit_BIT]
  by_cases hi : i < 32
  · have : (4294967295 : Nat).testBit i = true := by
      have := @Nat.testBit_two_pow_sub_one 32 i
      simpa [hi] using this
    rw [this]; simp
  · have hxi : x.testBit i = false := by
      apply Nat.testBit_lt_two_pow
      calc x < 4294967296 := hx
        _ = 2 ^ 32 := by norm_num
        _ ≤ 2 ^ i := Nat.pow_le_pow_right (by norm_num) (by omega)
    simp [hxi]

theorem land_not32_BIT_of_not_testBit (x c : Nat) (hx : x < 4294967296)
    (h : x.testBit c = false) : x &&& not32 (BIT c) = x := by
  apply Nat.eq_of_testBit_eq
  intro i
  rw [testBit_not32_BIT x c i hx]
  by_cases hi : c = i
  · subst hi; simp [h]
  · simp [hi]

theorem land_mask_lor (x b m : Nat) (hx : x &&& m = x) (hb : b &&& m = b) :
    (x ||| b) &&& m = x ||| b := by
  apply Nat.eq_of_testBit_eq
  intro i
  have h1 := congrArg (fun y => Nat.testBit y i) hx
  have h2 := congrArg (fun y => Nat.testBit y i) hb
  simp only [Nat.testBit_and] at h1 h2
  rw [Nat.testBit_and, Nat.testBit_or]
  cases hxi : x.testBit i <;> cases hbi : b.testBit i <;> cases hmi : m.testBit i <;> simp_all

theorem land_mask_land (x n m : Nat) (hx : x &&& m = x) : (x &&& n) &&& m = x &&& n := by
  apply Nat.eq_of_testBit_eq
  intro i
  have h1 := congrArg (fun y => Nat.testBit y i) hx
  simp only [Nat.testBit_and] at h1
  simp only [Nat.testBit_and]
  cases hxi : x.testBit i <;> cases hmi : m.testBit i <;> simp_all

theorem lt_of_land_mask (x m : Nat) (hx : x &&& m = x) (hm : m < 4294967296) :
    x < 4294967296 := by
  have : x &&& m ≤ m := Nat.and_le_right
  omega

/-! ## Configuration setters -/

/-- Claim C1 fails on the code: on an extended-variant port with a limit of 8
channels, `hsi_set_rx` with mode FRAME, flow SYNCHRONIZED, frame size 31 and the
two-bit channel mask 3 returns `-EINVAL` after it has written the RX mode register and
the RX frame-size register. -/
theorem set_rx_invalid_mask_writes_registers :
    (hsi_set_rx omap4 rx_cfg_mask3 sys0).1 = -EINVAL ∧
    (hsi_set_rx omap4 rx_cfg_mask3 sys0).2.trace
      = [Event.outl 2 (Reg.HSI_HSR_MODE_REG 1), Event.outl 31 (Reg.HSI_HSR_FRAMESIZE_REG 1)] ∧
    (hsi_set_rx omap4 rx_cfg_mask3 sys0).2.st.regs (Reg.HSI_HSR_FRAMESIZE_REG 1) = 31 ∧
    sys0.st.regs (Reg.HSI_HSR_FRAMESIZE_REG 1) = 0 := by
  decide

/-- Claim C2 fails on the code: on an extended-variant port with a limit of 8
channels, `hsi_set_tx` with mode FRAME, flow SYNCHRONIZED, frame size 31, round-robin
arbitration and the two-bit channel mask 3 returns `-EINVAL` after it has written the
TX mode register and the TX frame-size register. -/
theorem set_tx_invalid_mask_writes_registers :
    (hsi_set_tx omap4 tx_cfg_mask3 sys0).1 = -EINVAL ∧
    (hsi_set_tx omap4 tx_cfg_mask3 sys0).2.trace
      = [Event.outl 18 (Reg.HSI_HST_MODE_REG 1), Event.outl 31 (Reg.HSI_HST_FRAMESIZE_REG 1)] ∧
    (hsi_set_tx omap4 tx_cfg_mask3 sys0).2.st.regs (Reg.HSI_HST_FRAMESIZE_REG 1) = 31 ∧
    sys0.st.regs (Reg.HSI_HST_FRAMESIZE_REG 1) = 0 := by
  decide

theorem hsi_set_rx_divisor_not_set (K : Consts) (s : Sys) :
    hsi_set_rx_divisor K NOT_SET s = (0, s) := by
  simp [hsi_set_rx_divisor]

/-- The function `hsi_set_rx` on a configuration that specifies the channel mask only. -/
theorem hsi_set_rx_channels_only (K : Consts) (s : Sys) (c : Nat) :
    hsi_set_rx K (rx_cfg_channels c) s =
      if c = 0 ∨ (c > s.st.port.max_ch ∧ c ≠ NOT_SET) then (-EINVAL, s)
      else if c = NOT_SET then (0, s)
      else if (c &&& u32 (4294967296 - c)) ^^^ c ≠ 0 then (-EINVAL, s)
      else (0, hsi_outl c (Reg.HSI_HSR_CHANNELS_REG s.st.port.port_number) s) := by
  unfold hsi_set_rx hsi_set_rx_tail rx_cfg_channels
  simp only [ne_eq, not_true_eq_false, and_false, if_false, ite_self,
    hsi_set_rx_divisor_not_set]
  split_ifs <;> rfl

/-- Claim C3: with every field but the channel mask unchanged, `hsi_set_rx` returns 0
exactly when the 32-bit mask `c` is unchanged (`NOT_SET`) or is non-zero, a power of
two and at most the port's `max_ch`; any other mask gives `-EINVAL`; on success with a
specified mask the RX channels register holds the mask.  With a limit of 4, mask 3 is
rejected and mask 4 accepted. -/
theorem set_rx_channel_mask (K : Consts) (s : Sys) (c : Nat) (hc : c < 4294967296) :
    ((hsi_set_rx K (rx_cfg_channels c) s).1 = 0 ↔
      (c = NOT_SET ∨ (c ≠ 0 ∧ (∃ k, c = 2 ^ k) ∧ c ≤ s.st.port.max_ch))) ∧
    ((hsi_set_rx K (rx_cfg_channels c) s).1 = 0 ∨
      (hsi_set_rx K (rx_cfg_channels c) s).1 = -EINVAL) ∧
    ((hsi_set_rx K (rx_cfg_channels c) s).1 = 0 → c ≠ NOT_SET →
      (hsi_set_rx K (rx_cfg_channels c) s).2.st.regs
        (Reg.HSI_HSR_CHANNELS_REG s.st.port.port_number) = c) ∧
    (s.st.port.max_ch = 4 →
      (hsi_set_rx K (rx_cfg_channels 3) s).1 = -EINVAL ∧
      (hsi_set_rx K (rx_cfg_channels 4) s).1 = 0) := by
  have hE : (-EINVAL : Int) ≠ 0 := by decide
  simp only [hsi_set_rx_channels_only]
  refine ⟨?_, ?_, ?_, ?_⟩
  · by_cases h0 : c = 0
    · subst h0
      simp [hE, NOT_SET]
    · have hb := single_bit_test c h0 hc
      by_cases hn : c = NOT_SET
      · subst hn
        simp [h0]
      · by_cases hm : c ≤ s.st.port.max_ch
        · by_cases hk : ∃ k, c = 2 ^ k
          · have hz := hb.2 hk
            simp only [h0, hn, hz, Nat.not_lt.2 hm, gt_iff_lt, false_and, or_self, if_false,
              ne_eq, not_true_eq_false, not_false_eq_true, true_and, false_or]
            exact ⟨fun _ => ⟨hk, hm⟩, fun _ => trivial⟩
          · have hz : ¬ (c &&& u32 (4294967296 - c)) ^^^ c = 0 := fun h => hk (hb.1 h)
            simp only [h0, hn, hz, Nat.not_lt.2 hm, gt_iff_lt, false_and, or_self, if_false,
              ne_eq, not_false_eq_true, if_true, true_and, false_or, hE, false_iff]
            exact fun h => hk h.1
        · have hm2 : c > s.st.port.max_ch := Nat.lt_of_not_le hm
          simp only [h0, hn, hm2, ne_eq, not_false_eq_true, and_self, or_true, if_true, hE,
            false_or, true_and, false_iff]
          exact fun h => hm h.2
  · split_ifs <;> simp
  · intro hr hn
    revert hr
    split_ifs <;> simp_all [hsi_outl]
  · intro h4
    have t3 : (3 &&& u32 (4294967296 - 3)) ^^^ 3 ≠ 0 := by decide
    have t4 : (4 &&& u32 (4294967296 - 4)) ^^^ 4 = 0 := by decide
    constructor
    · simp [h4, NOT_SET, t3]
    · simp [h4, NOT_SET, t4]

/-- Instance of claim C3 on the port of `sys0` (limit 8): the mask 4 is accepted and
the RX channels register holds it afterwards. -/
theorem set_rx_channel_mask_witness :
    (4 : Nat) < 4294967296 ∧
    (hsi_set_rx omap4 (rx_cfg_channels 4) sys0).1 = 0 ∧
    (hsi_set_rx omap4 (rx_cfg_channels 4) sys0).2.st.regs (Reg.HSI_HSR_CHANNELS_REG 1) = 4 :=
  ⟨by decide,
   ((set_rx_channel_mask omap4 sys0 4 (by decide)).1).2
     (Or.inr ⟨by decide, ⟨2, by decide⟩, by decide⟩),
   (set_rx_channel_mask omap4 sys0 4 (by decide)).2.2.1
     (((set_rx_channel_mask omap4 sys0 4 (by decide)).1).2
       (Or.inr ⟨by decide, ⟨2, by decide⟩, by decide⟩)) (by decide)⟩

/-! ## Transfer requests -/

/-- Claim C4: when the channel is not OPEN, or the buffer is `NULL`, or the word count
is 0, `hsi_write` and `hsi_read` return `-EINVAL` and hand back the state they were
given, trace included: no backend is invoked, and flags and descriptors are as they
were. -/
theorem transfer_bad_args_rejected (B : Backends) (n addr size : Nat) (s : Sys)
    (h : (s.st.chans n).flags.HSI_CH_OPEN = false ∨ addr = 0 ∨ size = 0) :
    hsi_write B (some n) addr size s = (-EINVAL, s) ∧
    hsi_read B (some n) addr size s = (-EINVAL, s) := by
  unfold hsi_write hsi_read
  constructor
  · by_cases h1 : addr = 0 ∨ size = 0
    · simp only [h1, if_true]
    · have h2 : (s.st.chans n).flags.HSI_CH_OPEN = false := by tauto
      simp only [h1, h2, if_false, if_true]
  · by_cases h1 : addr = 0 ∨ size = 0
    · simp only [h1, if_true]
    · have h2 : (s.st.chans n).flags.HSI_CH_OPEN = false := by tauto
      simp only [h1, h2, if_false, if_true]

/-- Instance of claim C4: an 8-word write and read on the closed channel 0 of `sys0`. -/
theorem transfer_bad_args_rejected_witness :
    (sys0.st.chans 0).flags.HSI_CH_OPEN = false ∧
    hsi_write backends_ok (some 0) 4096 8 sys0 = (-EINVAL, sys0) ∧
    hsi_read backends_ok (some 0) 4096 8 sys0 = (-EINVAL, sys0) :=
  ⟨rfl, transfer_bad_args_rejected backends_ok 0 4096 8 sys0 (Or.inl rfl)⟩

/-- Claim C5: when the descriptor of a direction already holds a buffer, a new request
in that direction returns `-EINVAL` and hands back the state it was given, trace
included, whatever the buffer and word count of the new request: no backend is
invoked and the pending descriptor keeps its buffer, word count and handle. -/
theorem transfer_pending_rejected (B : Backends) (n addr size : Nat) (s : Sys) :
    ((s.st.chans n).write_data.addr ≠ 0 →
      hsi_write B (some n) addr size s = (-EINVAL, s)) ∧
    ((s.st.chans n).read_data.addr ≠ 0 →
      hsi_read B (some n) addr size s = (-EINVAL, s)) := by
  unfold hsi_write hsi_read
  constructor <;> intro h <;> simp only [ne_eq, h, not_false_eq_true, if_true] <;>
    split_ifs <;> rfl

/-- Instance of claim C5: a second write and a second read on channel 0 of `sys_busy`,
where an 8-word write and a 1-word read are pending. -/
theorem transfer_pending_rejected_witness :
    (sys_busy.st.chans 0).write_data.addr ≠ 0 ∧
    (sys_busy.st.chans 0).read_data.addr ≠ 0 ∧
    hsi_write backends_ok (some 0) 12288 2 sys_busy = (-EINVAL, sys_busy) ∧
    hsi_read backends_ok (some 0) 12288 2 sys_busy = (-EINVAL, sys_busy) :=
  ⟨by decide, by decide,
   (transfer_pending_rejected backends_ok 0 12288 2 sys_busy).1 (by decide),
   (transfer_pending_rejected backends_ok 0 12288 2 sys_busy).2 (by decide)⟩

/-- An accepted write adds one backend call, chosen by the word count, to the trace. -/
theorem hsi_write_accepted_trace (B : Backends) (n addr size : Nat) (s : Sys)
    (hopen : (s.st.chans n).flags.HSI_CH_OPEN = true) (ha : addr ≠ 0) (hs : size ≠ 0)
    (h : (s.st.chans n).write_data.addr = 0) :
    (hsi_write B (some n) addr size s).2.trace = s.trace ++
      [Event.call (if size = 1 then Extern.hsi_driver_enable_write_interrupt
                    else Extern.hsi_driver_write_dma) n] := by
  unfold hsi_write hsi_write_dispatch
  simp only [ha, hs, hopen, h, or_self, if_false, ne_eq, not_true_eq_false,
    Bool.true_eq_false]
  split_ifs <;> simp [Sys.invoke, hsi_write_install]

/-- An accepted read adds one backend call, chosen by the word count, to the trace. -/
theorem hsi_read_accepted_trace (B : Backends) (n addr size : Nat) (s : Sys)
    (hopen : (s.st.chans n).flags.HSI_CH_OPEN = true) (ha : addr ≠ 0) (hs : size ≠ 0)
    (h : (s.st.chans n).read_data.addr = 0) :
    (hsi_read B (some n) addr size s).2.trace = s.trace ++
      [Event.call (if size = 1 then Extern.hsi_driver_enable_read_interrupt
                    else Extern.hsi_driver_read_dma) n] := by
  unfold hsi_read hsi_read_dispatch
  simp only [ha, hs, hopen, h, or_self, if_false, ne_eq, not_true_eq_false,
    Bool.true_eq_false]
  split_ifs <;> simp [Sys.invoke, hsi_read_install]

/-- Claim C6: an accepted write (channel OPEN, buffer not `NULL`, word count not 0,
no write pending) adds exactly one backend call to the trace: the interrupt path
when the word count is 1 and the block-transfer path otherwise; likewise for a read.
One word goes to the interrupt path and eight words to the block-transfer path. -/
theorem transfer_dispatch_by_size (B : Backends) (n addr size : Nat) (s : Sys)
    (hopen : (s.st.chans n).flags.HSI_CH_OPEN = true) (ha : addr ≠ 0) (hs : size ≠ 0) :
    ((s.st.chans n).write_data.addr = 0 →
      (hsi_write B (some n) addr size s).2.trace = s.trace ++
        [Event.call (if size = 1 then Extern.hsi_driver_enable_write_interrupt
                      else Extern.hsi_driver_write_dma) n]) ∧
    ((s.st.chans n).read_data.addr = 0 →
      (hsi_read B (some n) addr size s).2.trace = s.trace ++
        [Event.call (if size = 1 then Extern.hsi_driver_enable_read_interrupt
                      else Extern.hsi_driver_read_dma) n]) := by
  exact ⟨hsi_write_accepted_trace B n addr size s hopen ha hs,
    hsi_read_accepted_trace B n addr size s hopen ha hs⟩

/-- Instance of claim C6 on the open channel 0 of `sys_open`: one word takes the
interrupt path, eight words the block-transfer path. -/
theorem transfer_dispatch_by_size_witness :
    (hsi_write backends_ok (some 0) 4096 1 sys_open).2.trace
      = [Event.call Extern.hsi_driver_enable_write_interrupt 0] ∧
    (hsi_write backends_ok (some 0) 4096 8 sys_open).2.trace
      = [Event.call Extern.hsi_driver_write_dma 0] ∧
    (hsi_read backends_ok (some 0) 4096 1 sys_open).2.trace
      = [Event.call Extern.hsi_driver_enable_read_interrupt 0] ∧
    (hsi_read backends_ok (some 0) 4096 8 sys_open).2.trace
      = [Event.call Extern.hsi_driver_read_dma 0] :=
  ⟨(transfer_dispatch_by_size backends_ok 0 4096 1 sys_open rfl (by decide) (by decide)).1 rfl,
   (transfer_dispatch_by_size backends_ok 0 4096 8 sys_open rfl (by decide) (by decide)).1 rfl,
   (transfer_dispatch_by_size backends_ok 0 4096 1 sys_open rfl (by decide) (by decide)).2 rfl,
   (transfer_dispatch_by_size backends_ok 0 4096 8 sys_open rfl (by decide) (by decide)).2 rfl⟩

/-- Claim C7: on an accepted write whose chosen backend reports a negative status,
`hsi_write` returns that status, the write descriptor ends with no buffer and word
count 0, and a following write with a buffer and a non-zero word count on the still
open channel reaches its backend; likewise for a read. -/
theorem transfer_backend_failure_rolls_back (B : Backends) (n addr size : Nat) (s : Sys)
    (hopen : (s.st.chans n).flags.HSI_CH_OPEN = true) (ha : addr ≠ 0) (hs : size ≠ 0) :
    ((s.st.chans n).write_data.addr = 0 →
      ((if size = 1 then B.hsi_driver_enable_write_interrupt n addr
        else B.hsi_driver_write_dma n addr size) (hsi_write_install n addr size s).st).1 < 0 →
      (hsi_write B (some n) addr size s).1 =
        ((if size = 1 then B.hsi_driver_enable_write_interrupt n addr
          else B.hsi_driver_write_dma n addr size) (hsi_write_install n addr size s).st).1 ∧
      ((hsi_write B (some n) addr size s).2.st.chans n).write_data.addr = 0 ∧
      ((hsi_write B (some n) addr size s).2.st.chans n).write_data.size = 0 ∧
      ∀ a2 z2 : Nat, a2 ≠ 0 → z2 ≠ 0 →
        ((hsi_write B (some n) addr size s).2.st.chans n).flags.HSI_CH_OPEN = true →
        (hsi_write B (some n) a2 z2 (hsi_write B (some n) addr size s).2).2.trace =
          (hsi_write B (some n) addr size s).2.trace ++
            [Event.call (if z2 = 1 then Extern.hsi_driver_enable_write_interrupt
                          else Extern.hsi_driver_write_dma) n]) ∧
    ((s.st.chans n).read_data.addr = 0 →
      ((if size = 1 then B.hsi_driver_enable_read_interrupt n addr
        else B.hsi_driver_read_dma n addr size) (hsi_read_install n addr size s).st).1 < 0 →
      (hsi_read B (some n) addr size s).1 =
        ((if size = 1 then B.hsi_driver_enable_read_interrupt n addr
          else B.hsi_driver_read_dma n addr size) (hsi_read_install n addr size s).st).1 ∧
      ((hsi_read B (some n) addr size s).2.st.chans n).read_data.addr = 0 ∧
      ((hsi_read B (some n) addr size s).2.st.chans n).read_data.size = 0 ∧
      ∀ a2 z2 : Nat, a2 ≠ 0 → z2 ≠ 0 →
        ((hsi_read B (some n) addr size s).2.st.chans n).flags.HSI_CH_OPEN = true →
        (hsi_read B (some n) a2 z2 (hsi_read B (some n) addr size s).2).2.trace =
          (hsi_read B (some n) addr size s).2.trace ++
            [Event.call (if z2 = 1 then Extern.hsi_driver_enable_read_interrupt
                          else Extern.hsi_driver_read_dma) n]) := by
  constructor
  · intro hp hf
    have hw : hsi_write B (some n) addr size s =
        ((hsi_write_dispatch B n addr size (hsi_write_install n addr size s)).1,
         { (hsi_write_dispatch B n addr size (hsi_write_install n addr size s)).2 with
           st := ((hsi_write_dispatch B n addr size (hsi_write_install n addr size s)).2.st.setCh n
             (fun ch => { ch with write_data := { ch.write_data with addr := 0, size := 0 } })) }) := by
      have hf2 : (hsi_write_dispatch B n addr size (hsi_write_install n addr size s)).1 < 0 := by
        unfold hsi_write_dispatch
        split_ifs with h1 <;> simp only [Sys.invoke] <;> simpa [h1] using hf
      unfold hsi_write
      simp only [ha, hs, hopen, hp, or_self, if_false, ne_eq, not_true_eq_false,
        Bool.true_eq_false, hf2, if_true]
    have h1 : (hsi_write B (some n) addr size s).1 =
        ((if size = 1 then B.hsi_driver_enable_write_interrupt n addr
          else B.hsi_driver_write_dma n addr size) (hsi_write_install n addr size s).st).1 := by
      rw [hw]; unfold hsi_write_dispatch; split_ifs <;> rfl
    have h2 : ((hsi_write B (some n) addr size s).2.st.chans n).write_data.addr = 0 := by
      rw [hw]; simp [State.setCh]
    have h3 : ((hsi_write B (some n) addr size s).2.st.chans n).write_data.size = 0 := by
      rw [hw]; simp [State.setCh]
    refine ⟨h1, h2, h3, ?_⟩
    intro a2 z2 ha2 hz2 ho
    exact hsi_write_accepted_trace B n a2 z2 _ ho ha2 hz2 h2
  · intro hp hf
    have hw : hsi_read B (some n) addr size s =
        ((hsi_read_dispatch B n addr size (hsi_read_install n addr size s)).1,
         { (hsi_read_dispatch B n addr size (hsi_read_install n addr size s)).2 with
           st := ((hsi_read_dispatch B n addr size (hsi_read_install n addr size s)).2.st.setCh n
             (fun ch => { ch with read_data := { ch.read_data with addr := 0, size := 0 } })) }) := by
      have hf2 : (hsi_read_dispatch B n addr size (hsi_read_install n addr size s)).1 < 0 := by
        unfold hsi_read_dispatch
        split_ifs with h1 <;> simp only [Sys.invoke] <;> simpa [h1] using hf
      unfold hsi_read
      simp only [ha, hs, hopen, hp, or_self, if_false, ne_eq, not_true_eq_false,
        Bool.true_eq_false, hf2, if_true]
    have h1 : (hsi_read B (some n) addr size s).1 =
        ((if size = 1 then B.hsi_driver_enable_read_interrupt n addr
          else B.hsi_driver_read_dma n addr size) (hsi_read_install n addr size s).st).1 := by
      rw [hw]; unfold hsi_read_dispatch; split_ifs <;> rfl
    have h2 : ((hsi_read B (some n) addr size s).2.st.chans n).read_data.addr = 0 := by
      rw [hw]; simp [State.setCh]
    have h3 : ((hsi_read B (some n) addr size s).2.st.chans n).read_data.size = 0 := by
      rw [hw]; simp [State.setCh]
    refine ⟨h1, h2, h3, ?_⟩
    intro a2 z2 ha2 hz2 ho
    exact hsi_read_accepted_trace B n a2 z2 _ ho ha2 hz2 h2

/-- Instance of claim C7 on the open channel 0 of `sys_open` with backends that refuse
with status `-16`: an 8-word write and a 1-word read return `-16`, leave no buffer
and no word count, and a second request reaches its backend again. -/
theorem transfer_backend_failure_rolls_back_witness :
    (hsi_write backends_fail (some 0) 4096 8 sys_open).1 = -16 ∧
    ((hsi_write backends_fail (some 0) 4096 8 sys_open).2.st.chans 0).write_data.addr = 0 ∧
    ((hsi_write backends_fail (some 0) 4096 8 sys_open).2.st.chans 0).write_data.size = 0 ∧
    (hsi_write backends_fail (some 0) 4096 8
        (hsi_write backends_fail (some 0) 4096 8 sys_open).2).2.trace =
      [Event.call Extern.hsi_driver_write_dma 0, Event.call Extern.hsi_driver_write_dma 0] ∧
    (hsi_read backends_fail (some 0) 4096 1 sys_open).1 = -16 ∧
    ((hsi_read backends_fail (some 0) 4096 1 sys_open).2.st.chans 0).read_data.addr = 0 ∧
    ((hsi_read backends_fail (some 0) 4096 1 sys_open).2.st.chans 0).read_data.size = 0 :=
  have hw := (transfer_backend_failure_rolls_back backends_fail 0 4096 8 sys_open rfl
    (by decide) (by decide)).1 rfl (by decide)
  have hr := (transfer_backend_failure_rolls_back backends_fail 0 4096 1 sys_open rfl
    (by decide) (by decide)).2 rfl (by decide)
  ⟨hw.1, hw.2.1, hw.2.2.1, hw.2.2.2 4096 8 (by decide) (by decide) (by decide),
   hr.1, hr.2.1, hr.2.2.1⟩

/-! ## Channel lifecycle -/

/-- Claim C8: `hsi_open` on a valid handle returns `-EINVAL` when the read or the write
completion callback is missing, whether or not the channel is OPEN, and then changes
nothing at all; otherwise `-EBUSY` when the channel is OPEN, and then registers and
channels are as before; otherwise 0, and then the channel flags are the old flags with
OPEN set, the other channels are as before, and the interrupt-enable register of the
port holds its old value OR-ed with the wake-detect, error and break bits, no other
register being changed. -/
theorem open_result (K : Consts) (n : Nat) (s : Sys) :
    ((s.st.chans n).read_done = false ∨ (s.st.chans n).write_done = false →
      hsi_open K (some n) s = (-EINVAL, s)) ∧
    ((s.st.chans n).read_done = true → (s.st.chans n).write_done = true →
      (s.st.chans n).flags.HSI_CH_OPEN = true →
      (hsi_open K (some n) s).1 = -EBUSY ∧
      (hsi_open K (some n) s).2.st.chans = s.st.chans ∧
      (hsi_open K (some n) s).2.st.regs = s.st.regs) ∧
    ((s.st.chans n).read_done = true → (s.st.chans n).write_done = true →
      (s.st.chans n).flags.HSI_CH_OPEN = false →
      (hsi_open K (some n) s).1 = 0 ∧
      ((hsi_open K (some n) s).2.st.chans n).flags =
        { (s.st.chans n).flags with HSI_CH_OPEN := true } ∧
      (∀ m, m ≠ n → (hsi_open K (some n) s).2.st.chans m = s.st.chans m) ∧
      (hsi_open K (some n) s).2.st.regs
          (Reg.HSI_SYS_MPU_ENABLE_REG s.st.port.port_number s.st.port.n_irq) =
        s.st.regs (Reg.HSI_SYS_MPU_ENABLE_REG s.st.port.port_number s.st.port.n_irq) |||
          (K.HSI_CAWAKEDETECTED ||| K.HSI_ERROROCCURED ||| K.HSI_BREAKDETECTED) ∧
      (∀ r, r ≠ Reg.HSI_SYS_MPU_ENABLE_REG s.st.port.port_number s.st.port.n_irq →
        (hsi_open K (some n) s).2.st.regs r = s.st.regs r)) := by
  refine ⟨?_, ?_, ?_⟩
  · intro h
    simp only [hsi_open, h, if_true]
  · intro hr hw ho
    simp [hsi_open, hr, hw, ho, hsi_clocks_enable_channel]
  · intro hr hw ho
    simp only [hsi_open, hr, hw, ho, hsi_clocks_enable_channel, hsi_clocks_disable_channel,
      hsi_outl_or, hsi_outl, hsi_inl, State.setCh, Bool.true_eq_false, or_self, if_false,
      Bool.false_eq_true]
    refine ⟨trivial, ?_, ?_, ?_, ?_⟩
    · simp [ho]
    · intro m hm
      simp [Function.update_noteq hm]
    · simp
    · intro r hne
      simp [Function.update_noteq hne]

/-- Instance of claim C8: opening channel 0 of `sys0` (callbacks registered, closed,
interrupt-enable register 0) succeeds, sets OPEN and leaves 0x700 in the
interrupt-enable register; opening channel 0 of `sys_open` returns `-EBUSY`. -/
theorem open_result_witness :
    (hsi_open omap4 (some 0) sys0).1 = 0 ∧
    ((hsi_open omap4 (some 0) sys0).2.st.chans 0).flags =
      { HSI_CH_OPEN := true, HSI_CH_RX_POLL := false, HSI_CH_ACWAKE := false } ∧
    (hsi_open omap4 (some 0) sys0).2.st.regs (Reg.HSI_SYS_MPU_ENABLE_REG 1 0) = 1792 ∧
    (hsi_open omap4 (some 0) sys_open).1 = -EBUSY :=
  have h := (open_result omap4 0 sys0).2.2 rfl rfl rfl
  ⟨h.1, h.2.1, h.2.2.2.1, ((open_result omap4 0 sys_open).2.1 rfl rfl rfl).1⟩

/-- Claim C9 fails as stated: channel 0 of `sys_closed_pending` is closed and its write
descriptor records an 8-word request; `hsi_close` only acquires and releases the
clock scope, calls no cancel backend, and the descriptor still holds its buffer. -/
theorem close_closed_channel_keeps_pending :
    (sys_closed_pending.st.chans 0).flags.HSI_CH_OPEN = false ∧
    ((hsi_close (some 0) sys_closed_pending).st.chans 0).write_data
      = { addr := 4096, size := 8, lch := 3 } ∧
    (hsi_close (some 0) sys_closed_pending).trace
      = [Event.clocks_enable 0, Event.clocks_disable 0] := by
  decide

/-- Claim C9, amended: after `hsi_close` the OPEN flag is clear.  If the channel was
OPEN, and each descriptor that holds a buffer has a word count of at least 1, then
afterwards neither descriptor holds a buffer or a word count, and between the clock
acquire and release the trace shows the write cancel and then the read cancel, each on
the interrupt path for a count of 1, on the block-transfer path for a larger count,
and absent for a count of 0.  If the channel was not OPEN, channels and registers are
as before and no cancel backend is called. -/
theorem close_result (n : Nat) (s : Sys)
    (hw : (s.st.chans n).write_data.addr ≠ 0 → (s.st.chans n).write_data.size ≠ 0)
    (hr : (s.st.chans n).read_data.addr ≠ 0 → (s.st.chans n).read_data.size ≠ 0) :
    ((hsi_close (some n) s).st.chans n).flags.HSI_CH_OPEN = false ∧
    ((s.st.chans n).flags.HSI_CH_OPEN = true →
      ((hsi_close (some n) s).st.chans n).write_data.addr = 0 ∧
      ((hsi_close (some n) s).st.chans n).write_data.size = 0 ∧
      ((hsi_close (some n) s).st.chans n).read_data.addr = 0 ∧
      ((hsi_close (some n) s).st.chans n).read_data.size = 0 ∧
      (hsi_close (some n) s).trace = s.trace ++ [Event.clocks_enable n] ++
        (if (s.st.chans n).write_data.size = 1 then
            [Event.call Extern.hsi_driver_cancel_write_interrupt n]
          else if (s.st.chans n).write_data.size > 1 then
            [Event.call Extern.hsi_driver_cancel_write_dma n]
          else []) ++
        (if (s.st.chans n).read_data.size = 1 then
            [Event.call Extern.hsi_driver_cancel_read_interrupt n]
          else if (s.st.chans n).read_data.size > 1 then
            [Event.call Extern.hsi_driver_cancel_read_dma n]
          else []) ++
        [Event.clocks_disable n]) ∧
    ((s.st.chans n).flags.HSI_CH_OPEN = false →
      (hsi_close (some n) s).st.chans = s.st.chans ∧
      (hsi_close (some n) s).st.regs = s.st.regs ∧
      (hsi_close (some n) s).trace = s.trace ++
        [Event.clocks_enable n, Event.clocks_disable n]) := by
  refine ⟨?_, ?_, ?_⟩
  · by_cases ho : (s.st.chans n).flags.HSI_CH_OPEN = true
    · simp only [hsi_close, hsi_clocks_enable_channel, hsi_clocks_disable_channel, ho, if_true,
        __hsi_write_cancel, __hsi_read_cancel, cancel_write_backend, cancel_read_backend,
        State.setCh]
      split_ifs <;> simp
    · simp [hsi_close, hsi_clocks_enable_channel, hsi_clocks_disable_channel, ho]
  · intro ho
    have hw2 : (s.st.chans n).write_data.size = 0 → (s.st.chans n).write_data.addr = 0 := by
      intro h; by_contra h2; exact hw h2 h
    have hr2 : (s.st.chans n).read_data.size = 0 → (s.st.chans n).read_data.addr = 0 := by
      intro h; by_contra h2; exact hr h2 h
    simp only [hsi_close, hsi_clocks_enable_channel, hsi_clocks_disable_channel, ho, if_true,
      __hsi_write_cancel, __hsi_read_cancel, cancel_write_backend, cancel_read_backend,
      State.setCh]
    by_cases w1 : (s.st.chans n).write_data.size = 1
    · by_cases r1 : (s.st.chans n).read_data.size = 1
      · simp [w1, r1]
      · by_cases r2 : (s.st.chans n).read_data.size > 1
        · simp [w1, r1, r2]
        · have r0 : (s.st.chans n).read_data.size = 0 := by omega
          simp [w1, r0, hr2 r0]
    · by_cases w2 : (s.st.chans n).write_data.size > 1
      · by_cases r1 : (s.st.chans n).read_data.size = 1
        · simp [w1, w2, r1]
        · by_cases r2 : (s.st.chans n).read_data.size > 1
          · simp [w1, w2, r1, r2]
          · have r0 : (s.st.chans n).read_data.size = 0 := by omega
            simp [w1, w2, r0, hr2 r0]
      · have w0 : (s.st.chans n).write_data.size = 0 := by omega
        by_cases r1 : (s.st.chans n).read_data.size = 1
        · simp [w0, r1, hw2 w0]
        · by_cases r2 : (s.st.chans n).read_data.size > 1
          · simp [w0, r1, r2, hw2 w0]
          · have r0 : (s.st.chans n).read_data.size = 0 := by omega
            simp [w0, r0, hw2 w0, hr2 r0]
  · intro ho
    simp [hsi_close, hsi_clocks_enable_channel, hsi_clocks_disable_channel, ho]

/-- Instance of claim C9 (amended) on channel 0 of `sys_busy`, which is OPEN with an
8-word write and a 1-word read pending. -/
theorem close_result_witness :
    ((hsi_close (some 0) sys_busy).st.chans 0).flags.HSI_CH_OPEN = false ∧
    ((hsi_close (some 0) sys_busy).st.chans 0).write_data.addr = 0 ∧
    ((hsi_close (some 0) sys_busy).st.chans 0).read_data.addr = 0 ∧
    (hsi_close (some 0) sys_busy).trace =
      [Event.clocks_enable 0, Event.call Extern.hsi_driver_cancel_write_dma 0,
       Event.call Extern.hsi_driver_cancel_read_interrupt 0, Event.clocks_disable 0] :=
  have h := close_result 0 sys_busy (by decide) (by decide)
  ⟨h.1, (h.2.1 rfl).1, (h.2.1 rfl).2.2.1, (h.2.1 rfl).2.2.2.2⟩

/-! ## RX divisor -/

/-- Claim C10: on the extended variant with counters active, `hsi_set_rx_divisor` with
the AUTO value stores the counter register in the port shadow, writes 0 to the counter
register (and to the divisor register) and marks the counters inactive; a following
call with a specified value `d` other than AUTO writes the shadow back to the counter
register, marks the counters active and then writes `d` to the divisor register.  So
the counter register and the active state of the counters are restored. -/
theorem rx_divisor_auto_round_trip (K : Consts) (s : Sys) (d : Nat)
    (hA : K.HSI_HSR_DIVISOR_AUTO ≠ NOT_SET) (hext : s.st.is_hsi = true)
    (hon : s.st.port.counters_on ≠ 0) (hd : d ≠ NOT_SET) (hdA : d ≠ K.HSI_HSR_DIVISOR_AUTO) :
    (hsi_set_rx_divisor K K.HSI_HSR_DIVISOR_AUTO s).1 = 0 ∧
    (hsi_set_rx_divisor K K.HSI_HSR_DIVISOR_AUTO s).2.st.port.reg_counters =
      s.st.regs (Reg.HSI_HSR_COUNTERS_REG s.st.port.port_number) ∧
    (hsi_set_rx_divisor K K.HSI_HSR_DIVISOR_AUTO s).2.st.regs
      (Reg.HSI_HSR_COUNTERS_REG s.st.port.port_number) = 0 ∧
    (hsi_set_rx_divisor K K.HSI_HSR_DIVISOR_AUTO s).2.st.port.counters_on = 0 ∧
    (hsi_set_rx_divisor K K.HSI_HSR_DIVISOR_AUTO s).2.trace = s.trace ++
      [Event.inl (Reg.HSI_HSR_COUNTERS_REG s.st.port.port_number),
       Event.outl 0 (Reg.HSI_HSR_COUNTERS_REG s.st.port.port_number),
       Event.outl 0 (Reg.HSI_HSR_DIVISOR_REG s.st.port.port_number)] ∧
    (hsi_set_rx_divisor K d (hsi_set_rx_divisor K K.HSI_HSR_DIVISOR_AUTO s).2).1 = 0 ∧
    (hsi_set_rx_divisor K d (hsi_set_rx_divisor K K.HSI_HSR_DIVISOR_AUTO s).2).2.st.regs
      (Reg.HSI_HSR_COUNTERS_REG s.st.port.port_number) =
      s.st.regs (Reg.HSI_HSR_COUNTERS_REG s.st.port.port_number) ∧
    (hsi_set_rx_divisor K d
      (hsi_set_rx_divisor K K.HSI_HSR_DIVISOR_AUTO s).2).2.st.port.counters_on = 1 ∧
    (hsi_set_rx_divisor K d (hsi_set_rx_divisor K K.HSI_HSR_DIVISOR_AUTO s).2).2.st.regs
      (Reg.HSI_HSR_DIVISOR_REG s.st.port.port_number) = d ∧
    (hsi_set_rx_divisor K d (hsi_set_rx_divisor K K.HSI_HSR_DIVISOR_AUTO s).2).2.trace =
      (hsi_set_rx_divisor K K.HSI_HSR_DIVISOR_AUTO s).2.trace ++
        [Event.outl (s.st.regs (Reg.HSI_HSR_COUNTERS_REG s.st.port.port_number))
           (Reg.HSI_HSR_COUNTERS_REG s.st.port.port_number),
         Event.outl d (Reg.HSI_HSR_DIVISOR_REG s.st.port.port_number)] := by
  have e1 : hsi_set_rx_divisor K K.HSI_HSR_DIVISOR_AUTO s =
      (0, hsi_outl 0 (Reg.HSI_HSR_DIVISOR_REG s.st.port.port_number)
        (hsi_outl 0 (Reg.HSI_HSR_COUNTERS_REG s.st.port.port_number)
          (((hsi_inl (Reg.HSI_HSR_COUNTERS_REG s.st.port.port_number) s).2.setPort
            (fun p => { p with reg_counters :=
              (hsi_inl (Reg.HSI_HSR_COUNTERS_REG s.st.port.port_number) s).1 })).setPort
            (fun p => { p with counters_on := 0 })))) := by
    simp only [hsi_set_rx_divisor, hA, hext, hon, if_false, if_true, ne_eq, not_false_eq_true,
      and_self]
  rw [e1]
  simp only [hsi_set_rx_divisor, hd, hdA, if_false, if_true, ne_eq, not_false_eq_true,
    false_and, hsi_outl, hsi_inl, Sys.setPort, hext]
  simp

/-- Instance of claim C10 on `sys_counters` (extended variant, counters active, counter
register 85): AUTO saves 85 and zeroes the register, the divisor 2 restores 85 and is
programmed. -/
theorem rx_divisor_auto_round_trip_witness :
    (hsi_set_rx_divisor omap4 4096 sys_counters).2.st.port.reg_counters = 85 ∧
    (hsi_set_rx_divisor omap4 4096 sys_counters).2.st.regs (Reg.HSI_HSR_COUNTERS_REG 1) = 0 ∧
    (hsi_set_rx_divisor omap4 4096 sys_counters).2.st.port.counters_on = 0 ∧
    (hsi_set_rx_divisor omap4 2 (hsi_set_rx_divisor omap4 4096 sys_counters).2).2.st.regs
      (Reg.HSI_HSR_COUNTERS_REG 1) = 85 ∧
    (hsi_set_rx_divisor omap4 2
      (hsi_set_rx_divisor omap4 4096 sys_counters).2).2.st.port.counters_on = 1 ∧
    (hsi_set_rx_divisor omap4 2 (hsi_set_rx_divisor omap4 4096 sys_counters).2).2.st.regs
      (Reg.HSI_HSR_DIVISOR_REG 1) = 2 :=
  have h := rx_divisor_auto_round_trip omap4 sys_counters 2 (by decide) rfl (by decide)
    (by decide) (by decide)
  ⟨h.2.1, h.2.2.1, h.2.2.2.1, h.2.2.2.2.2.2.1, h.2.2.2.2.2.2.2.1, h.2.2.2.2.2.2.2.2.1⟩

/-- Claim C11: on the basic variant `hsi_set_rx_divisor` never writes the divisor
register: for every divisor value the call adds to the trace nothing, or a read and a
zeroing of the counter register, or a write of the shadow to the counter register, and
the divisor register keeps its value.  With AUTO a specified value and counters active, AUTO stores the counter
register in the port shadow, zeroes it and marks the counters inactive.  With counters
inactive and use-timeout a specified value, use-timeout writes the shadow to the
counter register and marks the counters active, and every other divisor value returns
the state it was given; so does every value other than AUTO while the counters are
active. -/
theorem rx_divisor_basic (K : Consts) (s : Sys) (hb : s.st.is_hsi = false) :
    (∀ d : Nat,
      (hsi_set_rx_divisor K d s).2.trace = s.trace ∨
      (hsi_set_rx_divisor K d s).2.trace = s.trace ++
        [Event.inl (Reg.HSI_HSR_COUNTERS_REG s.st.port.port_number),
         Event.outl 0 (Reg.HSI_HSR_COUNTERS_REG s.st.port.port_number)] ∨
      (hsi_set_rx_divisor K d s).2.trace = s.trace ++
        [Event.outl s.st.port.reg_counters (Reg.HSI_HSR_COUNTERS_REG s.st.port.port_number)]) ∧
    (∀ d : Nat, (hsi_set_rx_divisor K d s).2.st.regs
        (Reg.HSI_HSR_DIVISOR_REG s.st.port.port_number) =
      s.st.regs (Reg.HSI_HSR_DIVISOR_REG s.st.port.port_number)) ∧
    (K.HSI_HSR_DIVISOR_AUTO ≠ NOT_SET → s.st.port.counters_on ≠ 0 →
      (hsi_set_rx_divisor K K.HSI_HSR_DIVISOR_AUTO s).2.st.port.reg_counters =
        s.st.regs (Reg.HSI_HSR_COUNTERS_REG s.st.port.port_number) ∧
      (hsi_set_rx_divisor K K.HSI_HSR_DIVISOR_AUTO s).2.st.regs
        (Reg.HSI_HSR_COUNTERS_REG s.st.port.port_number) = 0 ∧
      (hsi_set_rx_divisor K K.HSI_HSR_DIVISOR_AUTO s).2.st.port.counters_on = 0) ∧
    (s.st.port.counters_on = 0 →
      (K.HSI_SSR_DIVISOR_USE_TIMEOUT ≠ NOT_SET →
        (hsi_set_rx_divisor K K.HSI_SSR_DIVISOR_USE_TIMEOUT s).2.st.regs
          (Reg.HSI_HSR_COUNTERS_REG s.st.port.port_number) = s.st.port.reg_counters ∧
        (hsi_set_rx_divisor K K.HSI_SSR_DIVISOR_USE_TIMEOUT s).2.st.port.counters_on = 1) ∧
      (∀ d : Nat, d ≠ K.HSI_SSR_DIVISOR_USE_TIMEOUT → hsi_set_rx_divisor K d s = (0, s))) ∧
    (s.st.port.counters_on ≠ 0 →
      ∀ d : Nat, d ≠ K.HSI_HSR_DIVISOR_AUTO → hsi_set_rx_divisor K d s = (0, s)) := by
  refine ⟨?_, ?_, ?_, ?_, ?_⟩
  · intro d
    simp only [hsi_set_rx_divisor, hb, Bool.false_eq_true, if_false]
    split_ifs <;> simp [hsi_outl, hsi_inl, Sys.setPort]
  · intro d
    simp only [hsi_set_rx_divisor, hb, Bool.false_eq_true, if_false]
    split_ifs <;> simp [hsi_outl, hsi_inl, Sys.setPort]
  · intro hA hon
    simp [hsi_set_rx_divisor, hb, hA, hon, hsi_outl, hsi_inl, Sys.setPort]
  · intro hoff
    constructor
    · intro hT
      simp [hsi_set_rx_divisor, hb, hT, hoff, hsi_outl, Sys.setPort]
    · intro d hd
      simp [hsi_set_rx_divisor, hb, hd, hoff]
  · intro hon d hd
    simp [hsi_set_rx_divisor, hb, hd, hon]

/-- Instance of claim C11 on the basic-variant states `sys_basic` (counters active)
and `sys_basic_auto` (counters inactive, shadow 85). -/
theorem rx_divisor_basic_witness :
    (hsi_set_rx_divisor omap4 4096 sys_basic).2.st.port.counters_on = 0 ∧
    (hsi_set_rx_divisor omap4 4097 sys_basic_auto).2.st.regs (Reg.HSI_HSR_COUNTERS_REG 1) = 85 ∧
    (hsi_set_rx_divisor omap4 4097 sys_basic_auto).2.st.port.counters_on = 1 ∧
    hsi_set_rx_divisor omap4 2 sys_basic_auto = (0, sys_basic_auto) :=
  ⟨((rx_divisor_basic omap4 sys_basic rfl).2.2.1 (by decide) (by decide)).2.2,
   (((rx_divisor_basic omap4 sys_basic_auto rfl).2.2.2.1 rfl).1 (by decide)).1,
   (((rx_divisor_basic omap4 sys_basic_auto rfl).2.2.2.1 rfl).1 (by decide)).2,
   ((rx_divisor_basic omap4 sys_basic_auto rfl).2.2.2.1 rfl).2 2 (by decide)⟩

/-! ## Control dispatcher -/

/-- Claim C15: on an open channel, `hsi_ioctl` with a command code that is none of the
twelve case labels returns `-ENOIOCTLCMD` for every argument and hands back the
argument and the state it was given, trace included. -/
theorem ioctl_unknown_command (K : Consts) (E : Env) (n code : Nat) (arg : Arg) (s : Sys)
    (hopen : (s.st.chans n).flags.HSI_CH_OPEN = true) :
    hsi_ioctl K E (some n) (Cmd.other code) arg s = some (-ENOIOCTLCMD, arg, s) := by
  simp [hsi_ioctl, hsi_ioctl_switch, hopen]

/-- Instance of claim C15: command code 99 with a word argument on channel 0 of
`sys_open`. -/
theorem ioctl_unknown_command_witness :
    (sys_open.st.chans 0).flags.HSI_CH_OPEN = true ∧
    hsi_ioctl omap4 omap4_env (some 0) (Cmd.other 99) (Arg.word 7) sys_open
      = some (-ENOIOCTLCMD, Arg.word 7, sys_open) :=
  ⟨rfl, ioctl_unknown_command omap4 omap4_env 0 99 (Arg.word 7) sys_open rfl⟩

/-- Claim C16: on an open channel, `hsi_ioctl` with a `NULL` argument returns `-EINVAL`
for the six commands that need one; GET_CAWAKE with an argument on a port without a
wake-evidence line (`cawake_gpio < 0`) returns `-ENODEV` and leaves the object the
argument points to as it was.  In all these cases the state is handed back as given,
trace included: no register access and no clock acquisition. -/
theorem ioctl_missing_arg (K : Consts) (E : Env) (n : Nat) (s : Sys)
    (hopen : (s.st.chans n).flags.HSI_CH_OPEN = true) :
    (∀ cmd ∈ [Cmd.HSI_IOCTL_GET_ACWAKE, Cmd.HSI_IOCTL_GET_CAWAKE, Cmd.HSI_IOCTL_SET_RX,
        Cmd.HSI_IOCTL_GET_RX, Cmd.HSI_IOCTL_SET_TX, Cmd.HSI_IOCTL_GET_TX],
      hsi_ioctl K E (some n) cmd Arg.null s = some (-EINVAL, Arg.null, s)) ∧
    (∀ arg : Arg, arg ≠ Arg.null → s.st.port.cawake_gpio < 0 →
      hsi_ioctl K E (some n) Cmd.HSI_IOCTL_GET_CAWAKE arg s = some (-ENODEV, arg, s)) := by
  constructor
  · intro cmd hcmd
    simp only [List.mem_cons, List.mem_singleton, List.not_mem_nil, or_false] at hcmd
    rcases hcmd with h | h | h | h | h | h <;> subst h <;>
      simp [hsi_ioctl, hsi_ioctl_switch, hsi_ioctl_get_acwake, hsi_ioctl_get_cawake,
        hsi_ioctl_set_rx, hsi_ioctl_get_rx, hsi_ioctl_set_tx, hsi_ioctl_get_tx, hopen]
  · intro arg ha hg
    simp [hsi_ioctl, hsi_ioctl_switch, hsi_ioctl_get_cawake, hopen, ha, hg]

/-- Instance of claim C16 on channel 0 of `sys_open`, whose port has no wake-evidence
line. -/
theorem ioctl_missing_arg_witness :
    hsi_ioctl omap4 omap4_env (some 0) Cmd.HSI_IOCTL_SET_RX Arg.null sys_open
      = some (-EINVAL, Arg.null, sys_open) ∧
    hsi_ioctl omap4 omap4_env (some 0) Cmd.HSI_IOCTL_GET_CAWAKE (Arg.word 7) sys_open
      = some (-ENODEV, Arg.word 7, sys_open) :=
  ⟨(ioctl_missing_arg omap4 omap4_env 0 sys_open rfl).1 Cmd.HSI_IOCTL_SET_RX (by decide),
   (ioctl_missing_arg omap4 omap4_env 0 sys_open rfl).2 (Arg.word 7) (by decide) (by decide)⟩

/-- Claim C17 fails on the code.  With the arbitration mode 5, which is neither
round-robin nor priority, and every other field unchanged, `hsi_set_tx` returns 0 and
writes 5 to the arbitration register; with mode FRAME and flow SYNCHRONIZED specified
and the arbitration mode unchanged it returns `-EINVAL`. -/
theorem set_tx_arb_mode_check_uses_mode :
    (hsi_set_tx omap4 (tx_cfg_arb 5) sys0).1 = 0 ∧
    (hsi_set_tx omap4 (tx_cfg_arb 5) sys0).2.trace
      = [Event.outl 5 (Reg.HSI_HST_ARBMODE_REG 1)] ∧
    (hsi_set_tx omap4 (tx_cfg_mode_flow 2 0) sys0).1 = -EINVAL ∧
    (hsi_set_tx omap4 (tx_cfg_mode_flow 2 0) sys0).2.trace = [] := by
  decide

/-- Claim C18 fails on the code: `hsi_open` on the open channel 0 of `sys_open` returns
`-EBUSY` after one clock acquisition and no release, so the clock reference count is
one higher than on entry. -/
theorem open_busy_keeps_clock :
    (hsi_open omap4 (some 0) sys_open).1 = -EBUSY ∧
    (hsi_open omap4 (some 0) sys_open).2.trace = [Event.clocks_enable 0] ∧
    (hsi_open omap4 (some 0) sys_open).2.st.clk = sys_open.st.clk + 1 := by
  decide

/-- Claim C20: on the basic variant `hsi_set_rx` and `hsi_set_tx` return `-EINVAL` for
every configuration whose flow is specified and, masked, is not SYNCHRONIZED; this
covers PIPELINED when it lies within the flow mask and differs from SYNCHRONIZED and
from `NOT_SET`.  On the extended variant a configuration that specifies only the flow,
as SYNCHRONIZED or PIPELINED lying within the flow mask, is accepted by both. -/
theorem flow_by_variant (K : Consts) (s : Sys) :
    (s.st.is_hsi = false →
      (∀ cfg : hsr_ctx, cfg.flow ≠ NOT_SET →
        cfg.flow &&& K.HSI_FLOW_VAL_MASK ≠ K.HSI_FLOW_SYNCHRONIZED →
        hsi_set_rx K cfg s = (-EINVAL, s)) ∧
      (∀ cfg : hst_ctx, cfg.flow ≠ NOT_SET →
        cfg.flow &&& K.HSI_FLOW_VAL_MASK ≠ K.HSI_FLOW_SYNCHRONIZED →
        hsi_set_tx K cfg s = (-EINVAL, s)) ∧
      (K.HSI_FLOW_PIPELINED &&& K.HSI_FLOW_VAL_MASK = K.HSI_FLOW_PIPELINED →
        K.HSI_FLOW_PIPELINED ≠ K.HSI_FLOW_SYNCHRONIZED → K.HSI_FLOW_PIPELINED ≠ NOT_SET →
        hsi_set_rx K (rx_cfg_flow K.HSI_FLOW_PIPELINED) s = (-EINVAL, s) ∧
        hsi_set_tx K (tx_cfg_flow K.HSI_FLOW_PIPELINED) s = (-EINVAL, s))) ∧
    (s.st.is_hsi = true →
      ∀ f : Nat, f = K.HSI_FLOW_SYNCHRONIZED ∨ f = K.HSI_FLOW_PIPELINED →
        f &&& K.HSI_FLOW_VAL_MASK = f →
        hsi_set_rx K (rx_cfg_flow f) s = (0, s) ∧
        hsi_set_tx K (tx_cfg_flow f) s = (0, s)) := by
  have hrx : s.st.is_hsi = false → ∀ cfg : hsr_ctx, cfg.flow ≠ NOT_SET →
      cfg.flow &&& K.HSI_FLOW_VAL_MASK ≠ K.HSI_FLOW_SYNCHRONIZED →
      hsi_set_rx K cfg s = (-EINVAL, s) := by
    intro hb cfg h1 h2
    simp only [hsi_set_rx, hb, Bool.false_eq_true, if_false, ne_eq, h1, h2, not_false_eq_true,
      and_self, if_true]
    split_ifs <;> rfl
  have htx : s.st.is_hsi = false → ∀ cfg : hst_ctx, cfg.flow ≠ NOT_SET →
      cfg.flow &&& K.HSI_FLOW_VAL_MASK ≠ K.HSI_FLOW_SYNCHRONIZED →
      hsi_set_tx K cfg s = (-EINVAL, s) := by
    intro hb cfg h1 h2
    simp only [hsi_set_tx, hb, Bool.false_eq_true, if_false, ne_eq, h1, h2, not_false_eq_true,
      and_self, if_true]
    split_ifs <;> rfl
  refine ⟨fun hb => ⟨hrx hb, htx hb, ?_⟩, ?_⟩
  · intro hm hne hns
    exact ⟨hrx hb _ hns (by simpa [rx_cfg_flow, hm] using hne),
      htx hb _ hns (by simpa [tx_cfg_flow, hm] using hne)⟩
  · intro he f hf hm
    have hN0 : NOT_SET ≠ 0 := by decide
    have hacc : ¬ (f &&& K.HSI_FLOW_VAL_MASK ≠ K.HSI_FLOW_SYNCHRONIZED ∧
        f &&& K.HSI_FLOW_VAL_MASK ≠ K.HSI_FLOW_PIPELINED ∧ f ≠ NOT_SET) := by
      rw [hm]
      rcases hf with h | h <;> simp [h]
    constructor
    · simp only [hsi_set_rx, hsi_set_rx_tail, rx_cfg_flow, he, hacc, ne_eq, not_true_eq_false,
        and_false, if_false, if_true, hN0, false_or, false_and, hsi_set_rx_divisor_not_set]
    · simp only [hsi_set_tx, hsi_set_tx_tail, tx_cfg_flow, he, hacc, ne_eq, not_true_eq_false,
        and_false, if_false, if_true, hN0, false_or, false_and]

/-- Instance of claim C20 with the OMAP4 constants: PIPELINED is refused on the basic
variant `sys_basic` and accepted on the extended variant `sys0`. -/
theorem flow_by_variant_witness :
    hsi_set_rx omap4 (rx_cfg_flow 1) sys_basic = (-EINVAL, sys_basic) ∧
    hsi_set_tx omap4 (tx_cfg_flow 1) sys_basic = (-EINVAL, sys_basic) ∧
    hsi_set_rx omap4 (rx_cfg_flow 1) sys0 = (0, sys0) ∧
    hsi_set_tx omap4 (tx_cfg_flow 1) sys0 = (0, sys0) :=
  have hb := ((flow_by_variant omap4 sys_basic).1 rfl).2.2 (by decide) (by decide) (by decide)
  have he := (flow_by_variant omap4 sys0).2 rfl 1 (Or.inr rfl) (by decide)
  ⟨hb.1, hb.2, he.1, he.2⟩

/-! ## Wake line -/

/-- The result of lines 620-639 of the `HSI_IOCTL_ACWAKE_DOWN` case: whatever the
bitmap was, it ends as the wake register value, masked, without the bit of the
channel. -/
theorem acwake_down_prep_eq (K : Consts) (n : Nat) (s : Sys) :
    hsi_ioctl_acwake_down_prep K n s =
      (s.st.regs (Reg.HSI_SYS_WAKE_REG s.st.port.port_number),
       { st := { s.st with
           clk := s.st.clk + 1,
           cawake_status := s.st.cawake_level,
           acwake_status :=
             (s.st.regs (Reg.HSI_SYS_WAKE_REG s.st.port.port_number) &&& K.HSI_WAKE_MASK) &&&
               not32 (BIT n),
           chans := Function.update s.st.chans n
             { s.st.chans n with
               flags := { (s.st.chans n).flags with HSI_CH_ACWAKE := false } } },
         trace := s.trace ++ [Event.clocks_enable n, Event.get_cawake,
           Event.inl (Reg.HSI_SYS_WAKE_REG s.st.port.port_number)] }) := by
  by_cases h : s.st.acwake_status =
      s.st.regs (Reg.HSI_SYS_WAKE_REG s.st.port.port_number) &&& K.HSI_WAKE_MASK
  · simp [hsi_ioctl_acwake_down_prep, hsi_clocks_enable_channel, hsi_get_cawake, hsi_inl,
      State.setCh, h]
  · simp [hsi_ioctl_acwake_down_prep, hsi_clocks_enable_channel, hsi_get_cawake, hsi_inl,
      State.setCh, h]

/-- The bitmap after `HSI_IOCTL_ACWAKE_DOWN`. -/
theorem acwake_down_bitmap (K : Consts) (E : Env) (n : Nat) (s : Sys) :
    (hsi_ioctl_acwake_down K E n s).st.acwake_status =
      (s.st.regs (Reg.HSI_SYS_WAKE_REG s.st.port.port_number) &&& K.HSI_WAKE_MASK) &&&
        not32 (BIT n) := by
  simp only [hsi_ioctl_acwake_down, acwake_down_prep_eq, hsi_ioctl_acwake_down_release,
    hsi_ioctl_acwake_down_clear, hsi_clocks_disable_channel, cancel_work_sync, hsi_outl,
    Sys.deviceSet]
  split_ifs <;> rfl

/-- Claim C13: `HSI_IOCTL_ACWAKE_DOWN` on an open channel, when the bitmap is zero
after the call and the peer evidence line is low, returns 0 and attempts the
cancellation of the deferred task exactly once, after the snapshot and the read of the
wake register.  If the task was queued the cancellation succeeds and the call releases
the clock twice for its one acquisition (reference count one lower than on entry); if
not, it releases the clock once (reference count as on entry). -/
theorem wake_down_last_claim_low (K : Consts) (E : Env) (n : Nat) (arg : Arg) (s : Sys)
    (hopen : (s.st.chans n).flags.HSI_CH_OPEN = true)
    (hzero : (hsi_ioctl_acwake_down K E n s).st.acwake_status = 0)
    (hlow : s.st.cawake_level = 0) :
    hsi_ioctl K E (some n) Cmd.HSI_IOCTL_ACWAKE_DOWN arg s =
      some (0, arg, hsi_ioctl_acwake_down K E n s) ∧
    (hsi_ioctl_acwake_down K E n s).trace = s.trace ++
      [Event.clocks_enable n, Event.get_cawake,
       Event.inl (Reg.HSI_SYS_WAKE_REG s.st.port.port_number), Event.cancel_work_sync] ++
      (if s.st.hsi_work_pending then [Event.clocks_disable n] else []) ++
      (if s.st.regs (Reg.HSI_SYS_WAKE_REG s.st.port.port_number) &&& E.HSI_WAKE n ≠ 0 then
        [Event.outl (E.HSI_CLEAR_WAKE n) (Reg.HSI_SYS_CLEAR_WAKE_REG s.st.port.port_number)]
       else []) ++
      [Event.clocks_disable n] ∧
    (s.st.hsi_work_pending = true → (hsi_ioctl_acwake_down K E n s).st.clk = s.st.clk - 1) ∧
    (s.st.hsi_work_pending = false → (hsi_ioctl_acwake_down K E n s).st.clk = s.st.clk) := by
  rw [acwake_down_bitmap] at hzero
  refine ⟨?_, ?_, ?_, ?_⟩
  · simp [hsi_ioctl, hsi_ioctl_switch, hopen]
  · simp only [hsi_ioctl_acwake_down, acwake_down_prep_eq, hsi_ioctl_acwake_down_release,
      hsi_ioctl_acwake_down_clear, hsi_clocks_disable_channel, cancel_work_sync, hsi_outl,
      Sys.deviceSet, hzero, hlow, if_true]
    split_ifs <;> simp
  · intro hp
    simp only [hsi_ioctl_acwake_down, acwake_down_prep_eq, hsi_ioctl_acwake_down_release,
      hsi_ioctl_acwake_down_clear, hsi_clocks_disable_channel, cancel_work_sync, hsi_outl,
      Sys.deviceSet, hzero, hlow, hp, if_true]
    split_ifs <;> simp
  · intro hp
    simp only [hsi_ioctl_acwake_down, acwake_down_prep_eq, hsi_ioctl_acwake_down_release,
      hsi_ioctl_acwake_down_clear, hsi_clocks_disable_channel, cancel_work_sync, hsi_outl,
      Sys.deviceSet, hzero, hlow, hp, if_true]
    split_ifs <;> first | contradiction | simp

/-- Instance of claim C13 on channel 0, the only claiming channel, with the peer
evidence low: from `sys_wake_low` (task queued, reference count 1) the count ends at
0, from `sys_wake_low_idle` (task not queued) it stays 1. -/
theorem wake_down_last_claim_low_witness :
    (hsi_ioctl_acwake_down omap4 omap4_env 0 sys_wake_low).st.acwake_status = 0 ∧
    (hsi_ioctl_acwake_down omap4 omap4_env 0 sys_wake_low).st.clk = 0 ∧
    (hsi_ioctl_acwake_down omap4 omap4_env 0 sys_wake_low_idle).st.clk = 1 :=
  ⟨by decide,
   (wake_down_last_claim_low omap4 omap4_env 0 Arg.null sys_wake_low rfl (by decide) rfl).2.2.1
     rfl,
   (wake_down_last_claim_low omap4 omap4_env 0 Arg.null sys_wake_low_idle rfl (by decide)
     rfl).2.2.2 rfl⟩

/-- Claim C14 fails as stated: in `sys_wake_high` channel 0 is the only claiming
channel and the peer evidence line is high; `HSI_IOCTL_ACWAKE_DOWN` on channel 0 writes
the clear-wake register, after which the hardware wake register is 0. -/
theorem wake_down_high_clears_wake_line :
    sys_wake_high.st.cawake_level = 1 ∧
    sys_wake_high.st.regs (Reg.HSI_SYS_WAKE_REG 1) = 1 ∧
    (hsi_ioctl_acwake_down omap4 omap4_env 0 sys_wake_high).st.acwake_status = 0 ∧
    (hsi_ioctl_acwake_down omap4 omap4_env 0 sys_wake_high).trace =
      [Event.clocks_enable 0, Event.get_cawake, Event.inl (Reg.HSI_SYS_WAKE_REG 1),
       Event.outl 1 (Reg.HSI_SYS_CLEAR_WAKE_REG 1), Event.clocks_disable 0] ∧
    (hsi_ioctl_acwake_down omap4 omap4_env 0 sys_wake_high).st.regs
      (Reg.HSI_SYS_WAKE_REG 1) = 0 := by
  decide

/-- Claim C14, amended: `HSI_IOCTL_ACWAKE_DOWN` on an open channel, when the bitmap is
zero after the call and the peer evidence line is high, returns 0, makes no
cancellation attempt (the deferred task stays as it was) and leaves the clock
reference count as on entry; it writes the clear-wake register for the channel
exactly when the wake register read had the bit of the channel. -/
theorem wake_down_last_claim_high (K : Consts) (E : Env) (n : Nat) (arg : Arg) (s : Sys)
    (hopen : (s.st.chans n).flags.HSI_CH_OPEN = true)
    (hzero : (hsi_ioctl_acwake_down K E n s).st.acwake_status = 0)
    (hhigh : s.st.cawake_level ≠ 0) :
    hsi_ioctl K E (some n) Cmd.HSI_IOCTL_ACWAKE_DOWN arg s =
      some (0, arg, hsi_ioctl_acwake_down K E n s) ∧
    (hsi_ioctl_acwake_down K E n s).trace = s.trace ++
      [Event.clocks_enable n, Event.get_cawake,
       Event.inl (Reg.HSI_SYS_WAKE_REG s.st.port.port_number)] ++
      (if s.st.regs (Reg.HSI_SYS_WAKE_REG s.st.port.port_number) &&& E.HSI_WAKE n ≠ 0 then
        [Event.outl (E.HSI_CLEAR_WAKE n) (Reg.HSI_SYS_CLEAR_WAKE_REG s.st.port.port_number)]
       else []) ++
      [Event.clocks_disable n] ∧
    (hsi_ioctl_acwake_down K E n s).st.hsi_work_pending = s.st.hsi_work_pending ∧
    (hsi_ioctl_acwake_down K E n s).st.clk = s.st.clk := by
  rw [acwake_down_bitmap] at hzero
  refine ⟨?_, ?_, ?_, ?_⟩
  · simp [hsi_ioctl, hsi_ioctl_switch, hopen]
  · simp only [hsi_ioctl_acwake_down, acwake_down_prep_eq, hsi_ioctl_acwake_down_release,
      hsi_ioctl_acwake_down_clear, hsi_clocks_disable_channel, hsi_outl,
      Sys.deviceSet, hzero, hhigh, if_true, if_false]
    split_ifs <;> simp
  · simp only [hsi_ioctl_acwake_down, acwake_down_prep_eq, hsi_ioctl_acwake_down_release,
      hsi_ioctl_acwake_down_clear, hsi_clocks_disable_channel, hsi_outl,
      Sys.deviceSet, hzero, hhigh, if_true, if_false]
    split_ifs <;> rfl
  · simp only [hsi_ioctl_acwake_down, acwake_down_prep_eq, hsi_ioctl_acwake_down_release,
      hsi_ioctl_acwake_down_clear, hsi_clocks_disable_channel, hsi_outl,
      Sys.deviceSet, hzero, hhigh, if_true, if_false]
    split_ifs <;> simp

/-- Instance of claim C14 (amended) on channel 0 of `sys_wake_high`: the task stays
queued and the reference count stays 1. -/
theorem wake_down_last_claim_high_witness :
    (hsi_ioctl_acwake_down omap4 omap4_env 0 sys_wake_high).st.hsi_work_pending = true ∧
    (hsi_ioctl_acwake_down omap4 omap4_env 0 sys_wake_high).st.clk = 1 :=
  have h := wake_down_last_claim_high omap4 omap4_env 0 Arg.null sys_wake_high rfl
    (by decide) (by decide)
  ⟨h.2.2.1, h.2.2.2⟩

/-- Claim C19 fails as stated: `HSI_IOCTL_ACWAKE_UP` on channel 0 of `sys_open` acquires
the clock and does not release it; the reference count goes from 0 to 1. -/
theorem wake_up_keeps_clock :
    sys_open.st.clk = 0 ∧
    (hsi_ioctl_acwake_up omap4_env 0 sys_open).st.clk = 1 ∧
    (hsi_ioctl_acwake_up omap4_env 0 sys_open).trace =
      [Event.clocks_enable 0, Event.inl (Reg.HSI_SYS_WAKE_REG 1),
       Event.outl 1 (Reg.HSI_SYS_SET_WAKE_REG 1)] := by
  decide

/-- Claim C19, amended: `HSI_IOCTL_ACWAKE_UP` on an open channel returns 0, sets the
wake flag of the channel and its bitmap bit, writes the set-wake register for the
channel exactly when the wake register read did not have the bit of the channel, and
acquires the clock without releasing it: the reference count is one higher than on
entry. -/
theorem wake_up_result (K : Consts) (E : Env) (n : Nat) (arg : Arg) (s : Sys)
    (hopen : (s.st.chans n).flags.HSI_CH_OPEN = true) :
    hsi_ioctl K E (some n) Cmd.HSI_IOCTL_ACWAKE_UP arg s =
      some (0, arg, hsi_ioctl_acwake_up E n s) ∧
    ((hsi_ioctl_acwake_up E n s).st.chans n).flags =
      { (s.st.chans n).flags with HSI_CH_ACWAKE := true } ∧
    (hsi_ioctl_acwake_up E n s).st.acwake_status = s.st.acwake_status ||| BIT n ∧
    (hsi_ioctl_acwake_up E n s).trace = s.trace ++
      [Event.clocks_enable n, Event.inl (Reg.HSI_SYS_WAKE_REG s.st.port.port_number)] ++
      (if s.st.regs (Reg.HSI_SYS_WAKE_REG s.st.port.port_number) &&& E.HSI_WAKE n = 0 then
        [Event.outl (E.HSI_SET_WAKE n) (Reg.HSI_SYS_SET_WAKE_REG s.st.port.port_number)]
       else []) ∧
    (hsi_ioctl_acwake_up E n s).st.clk = s.st.clk + 1 := by
  refine ⟨?_, ?_, ?_, ?_, ?_⟩
  · simp [hsi_ioctl, hsi_ioctl_switch, hopen]
  all_goals
    simp only [hsi_ioctl_acwake_up, hsi_clocks_enable_channel, hsi_inl, hsi_outl,
      Sys.deviceSet, State.setCh]
    split_ifs <;> simp

/-- Instance of claim C19 (amended) on channel 0 of `sys_open`. -/
theorem wake_up_result_witness :
    ((hsi_ioctl_acwake_up omap4_env 0 sys_open).st.chans 0).flags =
      { HSI_CH_OPEN := true, HSI_CH_RX_POLL := false, HSI_CH_ACWAKE := true } ∧
    (hsi_ioctl_acwake_up omap4_env 0 sys_open).st.acwake_status = 1 ∧
    (hsi_ioctl_acwake_up omap4_env 0 sys_open).st.clk = 1 :=
  have h := wake_up_result omap4 omap4_env 0 Arg.null sys_open rfl
  ⟨h.2.1, h.2.2.1, h.2.2.2.2⟩

/-- The wake-up case keeps the wake state consistent and the port number unchanged. -/
theorem wake_up_consistent (K : Consts) (E : Env) (hE : E.wake_follows) (c : Nat)
    (hc : BIT c &&& K.HSI_WAKE_MASK = BIT c) (s : Sys) (h : wake_consistent K s) :
    wake_consistent K (hsi_ioctl_acwake_up E c s) := by
  obtain ⟨hW, hS, _, hset, _⟩ := hE
  obtain ⟨h1, h2, h3⟩ := h
  have hne : Reg.HSI_SYS_WAKE_REG s.st.port.port_number ≠
      Reg.HSI_SYS_SET_WAKE_REG s.st.port.port_number := by simp
  have hflags : ∀ i : Nat, (s.st.acwake_status ||| BIT c).testBit i =
      (Function.update s.st.chans c
        { s.st.chans c with flags := { (s.st.chans c).flags with HSI_CH_ACWAKE := true } }
        i).flags.HSI_CH_ACWAKE := by
    intro i
    rw [Nat.testBit_or, testBit_BIT]
    by_cases hi : c = i
    · subst hi; simp
    · simp [hi, Function.update_noteq (Ne.symm hi), h3 i]
  unfold wake_consistent
  simp only [hsi_ioctl_acwake_up, hsi_clocks_enable_channel, hsi_inl, hsi_outl, Sys.deviceSet,
    State.setCh, hW, hS, hset]
  by_cases hb : s.st.regs (Reg.HSI_SYS_WAKE_REG s.st.port.port_number) &&& BIT c = 0
  · simp only [hb, if_true]
    refine ⟨?_, land_mask_lor _ _ _ h2 hc, hflags⟩
    simp [Function.update_noteq hne, h1]
  · simp only [hb, if_false]
    refine ⟨?_, land_mask_lor _ _ _ h2 hc, hflags⟩
    have ht : s.st.acwake_status.testBit c = true := by
      rw [h1] at hb
      by_contra hx
      exact hb ((land_BIT_eq_zero_iff _ _).2 (by simpa using hx))
    rw [lor_BIT_of_testBit _ _ ht]
    exact h1

/-- What `HSI_IOCTL_ACWAKE_DOWN` leaves in the port, the channels and the wake
register. -/
theorem acwake_down_fields (K : Consts) (E : Env) (n : Nat) (s : Sys) :
    (hsi_ioctl_acwake_down K E n s).st.port = s.st.port ∧
    (hsi_ioctl_acwake_down K E n s).st.chans =
      Function.update s.st.chans n
        { s.st.chans n with flags := { (s.st.chans n).flags with HSI_CH_ACWAKE := false } } ∧
    (hsi_ioctl_acwake_down K E n s).st.regs (Reg.HSI_SYS_WAKE_REG s.st.port.port_number) =
      if s.st.regs (Reg.HSI_SYS_WAKE_REG s.st.port.port_number) &&& E.HSI_WAKE n ≠ 0 then
        E.wake_after_clear (s.st.regs (Reg.HSI_SYS_WAKE_REG s.st.port.port_number))
          (E.HSI_CLEAR_WAKE n)
      else s.st.regs (Reg.HSI_SYS_WAKE_REG s.st.port.port_number) := by
  have hne : Reg.HSI_SYS_WAKE_REG s.st.port.port_number ≠
      Reg.HSI_SYS_CLEAR_WAKE_REG s.st.port.port_number := by simp
  have hrel : ∀ t : Sys, (hsi_ioctl_acwake_down_release n t).st.port = t.st.port ∧
      (hsi_ioctl_acwake_down_release n t).st.chans = t.st.chans ∧
      (hsi_ioctl_acwake_down_release n t).st.regs = t.st.regs := by
    intro t
    simp only [hsi_ioctl_acwake_down_release, hsi_clocks_disable_channel, cancel_work_sync]
    split_ifs <;> exact ⟨rfl, rfl, rfl⟩
  have hclr : ∀ (w : Nat) (t : Sys),
      (hsi_ioctl_acwake_down_clear E n w t).st.port = t.st.port ∧
      (hsi_ioctl_acwake_down_clear E n w t).st.chans = t.st.chans ∧
      (hsi_ioctl_acwake_down_clear E n w t).st.regs (Reg.HSI_SYS_WAKE_REG t.st.port.port_number) =
        if w &&& E.HSI_WAKE n ≠ 0 then
          E.wake_after_clear (t.st.regs (Reg.HSI_SYS_WAKE_REG t.st.port.port_number))
            (E.HSI_CLEAR_WAKE n)
        else t.st.regs (Reg.HSI_SYS_WAKE_REG t.st.port.port_number) := by
    intro w t
    have hne2 : Reg.HSI_SYS_WAKE_REG t.st.port.port_number ≠
        Reg.HSI_SYS_CLEAR_WAKE_REG t.st.port.port_number := by simp
    simp only [hsi_ioctl_acwake_down_clear, hsi_outl, Sys.deviceSet]
    split_ifs
    · exact ⟨rfl, rfl, by simp [Function.update_noteq hne2]⟩
    · exact ⟨rfl, rfl, rfl⟩
  have hp := acwake_down_prep_eq K n s
  obtain ⟨r1, r2, r3⟩ := hrel (hsi_ioctl_acwake_down_prep K n s).2
  obtain ⟨c1, c2, c3⟩ := hclr (hsi_ioctl_acwake_down_prep K n s).1
    (hsi_ioctl_acwake_down_release n (hsi_ioctl_acwake_down_prep K n s).2)
  have p1 : (hsi_ioctl_acwake_down_prep K n s).2.st.port = s.st.port := by rw [hp]
  have p2 : (hsi_ioctl_acwake_down_prep K n s).2.st.chans =
      Function.update s.st.chans n
        { s.st.chans n with flags := { (s.st.chans n).flags with HSI_CH_ACWAKE := false } } := by
    rw [hp]
  have p3 : (hsi_ioctl_acwake_down_prep K n s).2.st.regs = s.st.regs := by rw [hp]
  have p4 : (hsi_ioctl_acwake_down_prep K n s).1 =
      s.st.regs (Reg.HSI_SYS_WAKE_REG s.st.port.port_number) := by rw [hp]
  refine ⟨?_, ?_, ?_⟩
  · show (hsi_ioctl_acwake_down_clear E n _ _).st.port = _
    rw [c1, r1, p1]
  · show (hsi_ioctl_acwake_down_clear E n _ _).st.chans = _
    rw [c2, r2, p2]
  · show (hsi_ioctl_acwake_down_clear E n _ _).st.regs _ = _
    rw [r1, p1, r3, p3, p4] at c3
    exact c3

/-- The wake-down case keeps the wake state consistent. -/
theorem wake_down_consistent (K : Consts) (E : Env) (hE : E.wake_follows)
    (hM : K.HSI_WAKE_MASK < 4294967296) (c : Nat) (s : Sys) (h : wake_consistent K s) :
    wake_consistent K (hsi_ioctl_acwake_down K E c s) := by
  obtain ⟨hW, _, hC, _, hclr⟩ := hE
  obtain ⟨h1, h2, h3⟩ := h
  have hlt : s.st.acwake_status < 4294967296 := lt_of_land_mask _ _ h2 hM
  obtain ⟨f1, f2, f3⟩ := acwake_down_fields K E c s
  have fb := acwake_down_bitmap K E c s
  rw [h1, h2] at fb
  rw [h1, hW, hC, hclr] at f3
  unfold wake_consistent
  rw [f1, f2, fb, f3]
  refine ⟨?_, land_mask_land _ _ _ h2, ?_⟩
  · by_cases hb : s.st.acwake_status &&& BIT c = 0
    · simp only [hb, ne_eq, not_true_eq_false, if_false]
      exact (land_not32_BIT_of_not_testBit _ _ hlt ((land_BIT_eq_zero_iff _ _).1 hb)).symm
    · simp only [hb, ne_eq, not_false_eq_true, if_true]
  · intro i
    rw [testBit_not32_BIT _ _ _ hlt]
    by_cases hi : c = i
    · subst hi; simp
    · simp [hi, Function.update_noteq (Ne.symm hi), h3 i]

/-- One wake call keeps the wake state consistent. -/
theorem wake_call_consistent (K : Consts) (E : Env) (hE : E.wake_follows)
    (hM : K.HSI_WAKE_MASK < 4294967296) (w : WakeCall)
    (hc : BIT w.ch &&& K.HSI_WAKE_MASK = BIT w.ch) (s : Sys) (h : wake_consistent K s) :
    wake_consistent K (wake_call K E s w) := by
  cases w with
  | up c =>
    by_cases ho : (s.st.chans c).flags.HSI_CH_OPEN = true
    · simp only [wake_call, hsi_ioctl, hsi_ioctl_switch, ho, Bool.true_eq_false, if_false]
      exact wake_up_consistent K E hE c hc s h
    · simp only [wake_call, hsi_ioctl, Bool.not_eq_true] at ho ⊢
      simp only [ho, if_true]
      exact h
  | down c =>
    by_cases ho : (s.st.chans c).flags.HSI_CH_OPEN = true
    · simp only [wake_call, hsi_ioctl, hsi_ioctl_switch, ho, Bool.true_eq_false, if_false]
      exact wake_down_consistent K E hE hM c s h
    · simp only [wake_call, hsi_ioctl, Bool.not_eq_true] at ho ⊢
      simp only [ho, if_true]
      exact h

/-- A sequence of wake calls keeps the wake state consistent. -/
theorem wake_calls_consistent (K : Consts) (E : Env) (hE : E.wake_follows)
    (hM : K.HSI_WAKE_MASK < 4294967296) (l : List WakeCall) :
    ∀ s : Sys, (∀ w ∈ l, BIT w.ch &&& K.HSI_WAKE_MASK = BIT w.ch) → wake_consistent K s →
      wake_consistent K (wake_calls K E s l) := by
  induction l with
  | nil => intro s _ h; exact h
  | cons w l ih =>
    intro s hl h
    have hw := hl w (List.mem_cons_self w l)
    have := ih (wake_call K E s w) (fun x hx => hl x (List.mem_cons_of_mem w hx))
      (wake_call_consistent K E hE hM w hw s h)
    simpa [wake_calls] using this

/-- Claim C12: let the wake bit of channel `c` be bit `c` of the wake, set-wake and
clear-wake registers, let the hardware wake register follow the set-wake and
clear-wake writes, and let the wake mask be a 32-bit word.  Start from a state in which
no channel has its wake flag set, the bitmap is zero and the hardware wake register is
zero.  Then after every prefix of a sequence of wake-up and wake-down calls on channels
whose bit lies within the wake mask, bit `c` of the bitmap is set exactly when the wake
flag of channel `c` is set, for every `c`. -/
theorem wake_bitmap_invariant (K : Consts) (E : Env)
    (hW : ∀ c, E.HSI_WAKE c = BIT c) (hS : ∀ c, E.HSI_SET_WAKE c = BIT c)
    (hC : ∀ c, E.HSI_CLEAR_WAKE c = BIT c)
    (hset : ∀ w v, E.wake_after_set w v = w ||| v)
    (hclr : ∀ w v, E.wake_after_clear w v = w &&& not32 v)
    (hM : K.HSI_WAKE_MASK < 4294967296)
    (calls : List WakeCall)
    (hcalls : ∀ w ∈ calls, BIT w.ch &&& K.HSI_WAKE_MASK = BIT w.ch)
    (s : Sys)
    (hflags : ∀ c, (s.st.chans c).flags.HSI_CH_ACWAKE = false)
    (hbitmap : s.st.acwake_status = 0)
    (hreg : s.st.regs (Reg.HSI_SYS_WAKE_REG s.st.port.port_number) = 0) :
    ∀ k c : Nat,
      (wake_calls K E s (calls.take k)).st.acwake_status.testBit c = true ↔
      ((wake_calls K E s (calls.take k)).st.chans c).flags.HSI_CH_ACWAKE = true := by
  intro k c
  have h0 : wake_consistent K s := by
    refine ⟨by rw [hreg, hbitmap], by rw [hbitmap]; simp, ?_⟩
    intro i
    rw [hbitmap, hflags i]
    simp
  have hk := wake_calls_consistent K E ⟨hW, hS, hC, hset, hclr⟩ hM (calls.take k) s
    (fun w hw => hcalls w (List.mem_of_mem_take hw)) h0
  rw [hk.2.2 c]

/-- Instance of claim C12 from `sys_open` with the OMAP4 constants: after wake-up on
channel 0, wake-up on channel 1 and wake-down on channel 0, bit 1 of the bitmap and the
wake flag of channel 1 agree; the bitmap is 2. -/
theorem wake_bitmap_invariant_witness :
    ((wake_calls omap4 omap4_env sys_open
        [WakeCall.up 0, WakeCall.up 1, WakeCall.down 0]).st.acwake_status.testBit 1 = true ↔
      ((wake_calls omap4 omap4_env sys_open
        [WakeCall.up 0, WakeCall.up 1, WakeCall.down 0]).st.chans 1).flags.HSI_CH_ACWAKE = true) ∧
    (wake_calls omap4 omap4_env sys_open
        [WakeCall.up 0, WakeCall.up 1, WakeCall.down 0]).st.acwake_status = 2 :=
  ⟨wake_bitmap_invariant omap4 omap4_env (fun _ => rfl) (fun _ => rfl) (fun _ => rfl)
      (fun _ _ => rfl) (fun _ _ => rfl) (by decide)
      [WakeCall.up 0, WakeCall.up 1, WakeCall.down 0] (by decide) sys_open
      (fun _ => rfl) rfl rfl 3 1,
   by decide⟩

/-- The assumption of claim C12 on the hardware is needed: with a wake register that
does not follow the set-wake writes, wake-up on channels 0 and 1 followed by wake-down
on channel 0 reconciles the bitmap to 0 while channel 1 keeps its wake flag. -/
theorem wake_bitmap_needs_wake_register :
    (wake_calls omap4 omap4_env_deaf sys_open
        [WakeCall.up 0, WakeCall.up 1, WakeCall.down 0]).st.acwake_status = 0 ∧
    ((wake_calls omap4 omap4_env_deaf sys_open
        [WakeCall.up 0, WakeCall.up 1, WakeCall.down 0]).st.chans 1).flags.HSI_CH_ACWAKE
      = true := by
  decide

/-- The trace, the clock reference count and the deferred task after
`HSI_IOCTL_ACWAKE_DOWN`, by the bitmap left by the call, the peer evidence level and
the state of the deferred task. -/
theorem acwake_down_trace (K : Consts) (E : Env) (n : Nat) (s : Sys) :
    (hsi_ioctl_acwake_down K E n s).trace = s.trace ++
      [Event.clocks_enable n, Event.get_cawake,
       Event.inl (Reg.HSI_SYS_WAKE_REG s.st.port.port_number)] ++
      (if (s.st.regs (Reg.HSI_SYS_WAKE_REG s.st.port.port_number) &&& K.HSI_WAKE_MASK) &&&
            not32 (BIT n) = 0 then
          if s.st.cawake_level = 0 then
            if s.st.hsi_work_pending then [Event.cancel_work_sync, Event.clocks_disable n]
            else [Event.cancel_work_sync]
          else []
        else [Event.clocks_disable n]) ++
      (if s.st.regs (Reg.HSI_SYS_WAKE_REG s.st.port.port_number) &&& E.HSI_WAKE n ≠ 0 then
        [Event.outl (E.HSI_CLEAR_WAKE n) (Reg.HSI_SYS_CLEAR_WAKE_REG s.st.port.port_number)]
       else []) ++
      [Event.clocks_disable n] := by
  simp only [hsi_ioctl_acwake_down, acwake_down_prep_eq, hsi_ioctl_acwake_down_release,
    hsi_ioctl_acwake_down_clear, hsi_clocks_disable_channel, cancel_work_sync, hsi_outl,
    Sys.deviceSet]
  split_ifs <;> simp

/-- Claim C22: `HSI_IOCTL_ACWAKE_DOWN` on an open channel returns 0 whatever the bitmap
and the wake register hold; afterwards the bitmap is the wake register value read,
masked with the wake mask, without the bit of the channel; and the call writes the
clear-wake register for the channel once when the value read had the wake bit of the
channel and not at all otherwise. -/
theorem wake_down_reconciles (K : Consts) (E : Env) (n : Nat) (arg : Arg) (s : Sys)
    (hopen : (s.st.chans n).flags.HSI_CH_OPEN = true) :
    hsi_ioctl K E (some n) Cmd.HSI_IOCTL_ACWAKE_DOWN arg s =
      some (0, arg, hsi_ioctl_acwake_down K E n s) ∧
    (hsi_ioctl_acwake_down K E n s).st.acwake_status =
      (s.st.regs (Reg.HSI_SYS_WAKE_REG s.st.port.port_number) &&& K.HSI_WAKE_MASK) &&&
        not32 (BIT n) ∧
    (hsi_ioctl_acwake_down K E n s).trace.count
        (Event.outl (E.HSI_CLEAR_WAKE n) (Reg.HSI_SYS_CLEAR_WAKE_REG s.st.port.port_number)) =
      s.trace.count
        (Event.outl (E.HSI_CLEAR_WAKE n) (Reg.HSI_SYS_CLEAR_WAKE_REG s.st.port.port_number)) +
      (if s.st.regs (Reg.HSI_SYS_WAKE_REG s.st.port.port_number) &&& E.HSI_WAKE n ≠ 0
        then 1 else 0) := by
  refine ⟨?_, acwake_down_bitmap K E n s, ?_⟩
  · simp [hsi_ioctl, hsi_ioctl_switch, hopen]
  · rw [acwake_down_trace]
    split_ifs <;> simp [List.count_cons]

/-- Instance of claim C22 on channel 0 of `sys_wake_mismatch`, where the bitmap is 7
and the wake register 3: the bitmap ends as 2 and the clear-wake register is written
once. -/
theorem wake_down_reconciles_witness :
    (hsi_ioctl_acwake_down omap4 omap4_env 0 sys_wake_mismatch).st.acwake_status = 2 ∧
    (hsi_ioctl_acwake_down omap4 omap4_env 0 sys_wake_mismatch).trace.count
      (Event.outl 1 (Reg.HSI_SYS_CLEAR_WAKE_REG 1)) = 1 :=
  have h := wake_down_reconciles omap4 omap4_env 0 Arg.null sys_wake_mismatch rfl
  ⟨h.2.1, h.2.2⟩

/-- Claim C21 fails as stated.  In `sys_wake_two` channels 0 and 1 hold a claim and the
clock reference count is 2; `HSI_IOCTL_ACWAKE_DOWN` on channel 0 leaves the bitmap at 2
and releases the clock twice for its one acquisition, so the count ends at 1.  In
`sys_wake_mismatch`, where the bitmap is 7 and the wake register 3, the same call
leaves the bitmap at 2: bit 2 is cleared with bit 0. -/
theorem wake_down_other_claims_releases_clock :
    sys_wake_two.st.clk = 2 ∧
    (hsi_ioctl_acwake_down omap4 omap4_env 0 sys_wake_two).st.acwake_status = 2 ∧
    (hsi_ioctl_acwake_down omap4 omap4_env 0 sys_wake_two).trace =
      [Event.clocks_enable 0, Event.get_cawake, Event.inl (Reg.HSI_SYS_WAKE_REG 1),
       Event.clocks_disable 0, Event.outl 1 (Reg.HSI_SYS_CLEAR_WAKE_REG 1),
       Event.clocks_disable 0] ∧
    (hsi_ioctl_acwake_down omap4 omap4_env 0 sys_wake_two).st.clk = 1 ∧
    sys_wake_mismatch.st.acwake_status = 7 ∧
    (hsi_ioctl_acwake_down omap4 omap4_env 0 sys_wake_mismatch).st.acwake_status = 2 := by
  decide

/-- Claim C21, amended: `HSI_IOCTL_ACWAKE_DOWN` on an open channel, when the bitmap is
not zero after the call, returns 0 and makes no cancellation attempt (the deferred task
stays as it was); it releases the clock twice for its one acquisition, so the
reference count is one lower than on entry; every other channel is left as it was; and
when the bitmap agreed with the masked wake register on entry, the bitmap afterwards is
the old bitmap without the bit of the channel. -/
theorem wake_down_other_claims (K : Consts) (E : Env) (n : Nat) (arg : Arg) (s : Sys)
    (hopen : (s.st.chans n).flags.HSI_CH_OPEN = true)
    (hnz : (hsi_ioctl_acwake_down K E n s).st.acwake_status ≠ 0) :
    hsi_ioctl K E (some n) Cmd.HSI_IOCTL_ACWAKE_DOWN arg s =
      some (0, arg, hsi_ioctl_acwake_down K E n s) ∧
    (hsi_ioctl_acwake_down K E n s).trace = s.trace ++
      [Event.clocks_enable n, Event.get_cawake,
       Event.inl (Reg.HSI_SYS_WAKE_REG s.st.port.port_number), Event.clocks_disable n] ++
      (if s.st.regs (Reg.HSI_SYS_WAKE_REG s.st.port.port_number) &&& E.HSI_WAKE n ≠ 0 then
        [Event.outl (E.HSI_CLEAR_WAKE n) (Reg.HSI_SYS_CLEAR_WAKE_REG s.st.port.port_number)]
       else []) ++
      [Event.clocks_disable n] ∧
    (hsi_ioctl_acwake_down K E n s).st.hsi_work_pending = s.st.hsi_work_pending ∧
    (hsi_ioctl_acwake_down K E n s).st.clk = s.st.clk - 1 ∧
    (∀ m, m ≠ n → (hsi_ioctl_acwake_down K E n s).st.chans m = s.st.chans m) ∧
    (s.st.acwake_status =
        s.st.regs (Reg.HSI_SYS_WAKE_REG s.st.port.port_number) &&& K.HSI_WAKE_MASK →
      (hsi_ioctl_acwake_down K E n s).st.acwake_status =
        s.st.acwake_status &&& not32 (BIT n)) := by
  have hb := acwake_down_bitmap K E n s
  rw [hb] at hnz
  refine ⟨?_, ?_, ?_, ?_, ?_, ?_⟩
  · simp [hsi_ioctl, hsi_ioctl_switch, hopen]
  · rw [acwake_down_trace]
    simp [hnz]
  · simp only [hsi_ioctl_acwake_down, acwake_down_prep_eq, hsi_ioctl_acwake_down_release,
      hsi_ioctl_acwake_down_clear, hsi_clocks_disable_channel, hsi_outl,
      Sys.deviceSet, hnz, if_false]
    split_ifs <;> rfl
  · simp only [hsi_ioctl_acwake_down, acwake_down_prep_eq, hsi_ioctl_acwake_down_release,
      hsi_ioctl_acwake_down_clear, hsi_clocks_disable_channel, hsi_outl,
      Sys.deviceSet, hnz, if_false]
    split_ifs <;> simp
  · intro m hm
    rw [(acwake_down_fields K E n s).2.1, Function.update_noteq hm]
  · intro he
    rw [hb, ← he]

/-- Instance of claim C21 (amended) on channel 0 of `sys_wake_two`: the task stays
queued, the reference count goes from 2 to 1, channel 1 keeps its wake flag and the
bitmap goes from 3 to 2. -/
theorem wake_down_other_claims_witness :
    (hsi_ioctl_acwake_down omap4 omap4_env 0 sys_wake_two).st.hsi_work_pending = true ∧
    (hsi_ioctl_acwake_down omap4 omap4_env 0 sys_wake_two).st.clk = 1 ∧
    (hsi_ioctl_acwake_down omap4 omap4_env 0 sys_wake_two).st.chans 1 =
      sys_wake_two.st.chans 1 ∧
    (hsi_ioctl_acwake_down omap4 omap4_env 0 sys_wake_two).st.acwake_status = 2 :=
  have h := wake_down_other_claims omap4 omap4_env 0 Arg.null sys_wake_two rfl (by decide)
  ⟨h.2.2.1, h.2.2.2.1, h.2.2.2.2.1 1 (by decide), h.2.2.2.2.2 rfl⟩

/-! ## Cancellation and closed channels -/

/-- The write cancel on an open channel: the clock bracket around the routing of
`__hsi_write_cancel` by the word count in the descriptor. -/
theorem hsi_write_cancel_trace (n : Nat) (s : Sys)
    (hopen : (s.st.chans n).flags.HSI_CH_OPEN = true) :
    (hsi_write_cancel (some n) s).trace = s.trace ++ [Event.clocks_enable n] ++
      (if (s.st.chans n).write_data.size = 1 then
          [Event.call Extern.hsi_driver_cancel_write_interrupt n]
        else if (s.st.chans n).write_data.size > 1 then
          [Event.call Extern.hsi_driver_cancel_write_dma n]
        else []) ++ [Event.clocks_disable n] := by
  simp only [hsi_write_cancel, hopen, Bool.true_eq_false, if_false, __hsi_write_cancel,
    hsi_clocks_enable_channel, hsi_clocks_disable_channel, cancel_write_backend]
  split_ifs <;> simp

/-- The read cancel on an open channel: the clock bracket around the routing of
`__hsi_read_cancel` by the word count in the descriptor. -/
theorem hsi_read_cancel_trace (n : Nat) (s : Sys)
    (hopen : (s.st.chans n).flags.HSI_CH_OPEN = true) :
    (hsi_read_cancel (some n) s).trace = s.trace ++ [Event.clocks_enable n] ++
      (if (s.st.chans n).read_data.size = 1 then
          [Event.call Extern.hsi_driver_cancel_read_interrupt n]
        else if (s.st.chans n).read_data.size > 1 then
          [Event.call Extern.hsi_driver_cancel_read_dma n]
        else []) ++ [Event.clocks_disable n] := by
  simp only [hsi_read_cancel, hopen, Bool.true_eq_false, if_false, __hsi_read_cancel,
    hsi_clocks_enable_channel, hsi_clocks_disable_channel, cancel_read_backend]
  split_ifs <;> simp

/-- Claim C23: take an accepted write of `size` words (channel OPEN, buffer not `NULL`,
`size` not 0, nothing pending, status not negative) after which the channel is still
OPEN and the descriptor holds the word count `size`.  The write called the interrupt
backend when `size` is 1 and the block-transfer backend otherwise, and the write cancel
that follows calls the interrupt cancel backend when `size` is 1 and the block-transfer
cancel backend otherwise, and no other backend; likewise for a read and the read
cancel.  With word count 0 in the descriptor the cancel routines return the state they
were given, and the cancel operations on an open channel only acquire and release the
clock. -/
theorem cancel_matches_dispatch (B : Backends) (n addr size : Nat) (s : Sys)
    (hopen : (s.st.chans n).flags.HSI_CH_OPEN = true) (ha : addr ≠ 0) (hs : size ≠ 0) :
    ((s.st.chans n).write_data.addr = 0 →
      0 ≤ (hsi_write B (some n) addr size s).1 →
      ((hsi_write B (some n) addr size s).2.st.chans n).flags.HSI_CH_OPEN = true →
      ((hsi_write B (some n) addr size s).2.st.chans n).write_data.size = size →
      (hsi_write B (some n) addr size s).2.trace = s.trace ++
        [Event.call (if size = 1 then Extern.hsi_driver_enable_write_interrupt
                      else Extern.hsi_driver_write_dma) n] ∧
      (hsi_write_cancel (some n) (hsi_write B (some n) addr size s).2).trace =
        (hsi_write B (some n) addr size s).2.trace ++
          [Event.clocks_enable n,
           Event.call (if size = 1 then Extern.hsi_driver_cancel_write_interrupt
                        else Extern.hsi_driver_cancel_write_dma) n,
           Event.clocks_disable n]) ∧
    ((s.st.chans n).read_data.addr = 0 →
      0 ≤ (hsi_read B (some n) addr size s).1 →
      ((hsi_read B (some n) addr size s).2.st.chans n).flags.HSI_CH_OPEN = true →
      ((hsi_read B (some n) addr size s).2.st.chans n).read_data.size = size →
      (hsi_read B (some n) addr size s).2.trace = s.trace ++
        [Event.call (if size = 1 then Extern.hsi_driver_enable_read_interrupt
                      else Extern.hsi_driver_read_dma) n] ∧
      (hsi_read_cancel (some n) (hsi_read B (some n) addr size s).2).trace =
        (hsi_read B (some n) addr size s).2.trace ++
          [Event.clocks_enable n,
           Event.call (if size = 1 then Extern.hsi_driver_cancel_read_interrupt
                        else Extern.hsi_driver_cancel_read_dma) n,
           Event.clocks_disable n]) ∧
    ((s.st.chans n).write_data.size = 0 →
      __hsi_write_cancel n s = s ∧
      (hsi_write_cancel (some n) s).trace = s.trace ++
        [Event.clocks_enable n, Event.clocks_disable n] ∧
      (hsi_write_cancel (some n) s).st.chans = s.st.chans) ∧
    ((s.st.chans n).read_data.size = 0 →
      __hsi_read_cancel n s = s ∧
      (hsi_read_cancel (some n) s).trace = s.trace ++
        [Event.clocks_enable n, Event.clocks_disable n] ∧
      (hsi_read_cancel (some n) s).st.chans = s.st.chans) := by
  refine ⟨?_, ?_, ?_, ?_⟩
  · intro hp _ ho hz
    refine ⟨hsi_write_accepted_trace B n addr size s hopen ha hs hp, ?_⟩
    rw [hsi_write_cancel_trace n _ ho, hz]
    by_cases h1 : size = 1
    · simp [h1]
    · have h2 : size > 1 := by omega
      simp [h1, h2]
  · intro hp _ ho hz
    refine ⟨hsi_read_accepted_trace B n addr size s hopen ha hs hp, ?_⟩
    rw [hsi_read_cancel_trace n _ ho, hz]
    by_cases h1 : size = 1
    · simp [h1]
    · have h2 : size > 1 := by omega
      simp [h1, h2]
  · intro hz
    refine ⟨by simp [__hsi_write_cancel, hz], ?_, ?_⟩
    · rw [hsi_write_cancel_trace n s hopen]; simp [hz]
    · simp [hsi_write_cancel, hopen, __hsi_write_cancel, hsi_clocks_enable_channel,
        hsi_clocks_disable_channel, hz]
  · intro hz
    refine ⟨by simp [__hsi_read_cancel, hz], ?_, ?_⟩
    · rw [hsi_read_cancel_trace n s hopen]; simp [hz]
    · simp [hsi_read_cancel, hopen, __hsi_read_cancel, hsi_clocks_enable_channel,
        hsi_clocks_disable_channel, hz]

/-- Instance of claim C23 on the open channel 0 of `sys_open` with backends that
accept: an 8-word write is cancelled on the block-transfer path, a 1-word read on the
interrupt path, and with nothing pending the write cancel calls no backend. -/
theorem cancel_matches_dispatch_witness :
    (hsi_write_cancel (some 0) (hsi_write backends_ok (some 0) 4096 8 sys_open).2).trace =
      [Event.call Extern.hsi_driver_write_dma 0, Event.clocks_enable 0,
       Event.call Extern.hsi_driver_cancel_write_dma 0, Event.clocks_disable 0] ∧
    (hsi_read_cancel (some 0) (hsi_read backends_ok (some 0) 4096 1 sys_open).2).trace =
      [Event.call Extern.hsi_driver_enable_read_interrupt 0, Event.clocks_enable 0,
       Event.call Extern.hsi_driver_cancel_read_interrupt 0, Event.clocks_disable 0] ∧
    (hsi_write_cancel (some 0) sys_open).trace =
      [Event.clocks_enable 0, Event.clocks_disable 0] :=
  ⟨((cancel_matches_dispatch backends_ok 0 4096 8 sys_open rfl (by decide) (by decide)).1
      rfl (by decide) (by decide) (by decide)).2,
   ((cancel_matches_dispatch backends_ok 0 4096 1 sys_open rfl (by decide) (by decide)).2.1
      rfl (by decide) (by decide) (by decide)).2,
   ((cancel_matches_dispatch backends_ok 0 4096 8 sys_open rfl (by decide)
      (by decide)).2.2.1 rfl).2.1⟩

/-- Claim C24: on a channel that is not OPEN, `hsi_poll` returns `-EINVAL` and
`hsi_ioctl` returns `-EINVAL` for every command and argument, both handing back the
state they were given, trace included; `hsi_write_cancel` and `hsi_read_cancel` return
the state they were given; `hsi_close` leaves the whole controller state (flags,
descriptors, bitmap, registers, clock reference count) as it was and its trace shows
one clock acquisition and one release, no backend call. -/
theorem closed_channel_inert (K : Consts) (E : Env) (B : Backends) (n : Nat) (s : Sys)
    (hclosed : (s.st.chans n).flags.HSI_CH_OPEN = false) :
    hsi_poll B (some n) s = (-EINVAL, s) ∧
    (∀ (command : Cmd) (arg : Arg),
      hsi_ioctl K E (some n) command arg s = some (-EINVAL, arg, s)) ∧
    hsi_write_cancel (some n) s = s ∧
    hsi_read_cancel (some n) s = s ∧
    (hsi_close (some n) s).st = s.st ∧
    (hsi_close (some n) s).trace = s.trace ++
      [Event.clocks_enable n, Event.clocks_disable n] := by
  refine ⟨?_, ?_, ?_, ?_, ?_, ?_⟩
  · simp [hsi_poll, hclosed]
  · intro command arg
    simp [hsi_ioctl, hclosed]
  · simp [hsi_write_cancel, hclosed]
  · simp [hsi_read_cancel, hclosed]
  · simp [hsi_close, hsi_clocks_enable_channel, hsi_clocks_disable_channel, hclosed]
  · simp [hsi_close, hsi_clocks_enable_channel, hsi_clocks_disable_channel, hclosed]

/-- Instance of claim C24 on the closed channel 0 of `sys0`. -/
theorem closed_channel_inert_witness :
    (sys0.st.chans 0).flags.HSI_CH_OPEN = false ∧
    hsi_poll backends_ok (some 0) sys0 = (-EINVAL, sys0) ∧
    hsi_ioctl omap4 omap4_env (some 0) Cmd.HSI_IOCTL_ACWAKE_UP Arg.null sys0
      = some (-EINVAL, Arg.null, sys0) ∧
    hsi_write_cancel (some 0) sys0 = sys0 ∧
    (hsi_close (some 0) sys0).st = sys0.st :=
  have h := closed_channel_inert omap4 omap4_env backends_ok 0 sys0 rfl
  ⟨rfl, h.1, h.2.1 Cmd.HSI_IOCTL_ACWAKE_UP Arg.null, h.2.2.1, h.2.2.2.2.1⟩

/-! ## Reading the configuration back -/

/-- Whenever the flow mask is smaller than `2 ^ HSI_FLOW_OFFSET` (as 3 is smaller than
4), `hsi_get_rx` returns flow 0 whatever the RX mode register holds: lines 156-157 mask
the register before shifting it. -/
theorem hsi_get_rx_flow_zero (K : Consts) (cfg : hsr_ctx) (s : Sys)
    (hK : K.HSI_FLOW_VAL_MASK < 2 ^ K.HSI_FLOW_OFFSET) :
    (hsi_get_rx K cfg s).1.flow = 0 := by
  have h : ∀ x : Nat, (x &&& K.HSI_FLOW_VAL_MASK) >>> K.HSI_FLOW_OFFSET = 0 := by
    intro x
    rw [Nat.shiftRight_eq_div_pow]
    exact Nat.div_eq_of_lt (lt_of_le_of_lt Nat.and_le_right hK)
  simp only [hsi_get_rx, hsi_inl]
  split_ifs <;> exact h _

/-- Claim C25 fails on the code: on the extended-variant port of `sys0`, `hsi_set_rx`
with mode FRAME and flow PIPELINED is accepted and writes 6 to the RX mode register;
`hsi_get_rx` then returns mode 2 and flow 0, not the flow 1 that was set. -/
theorem get_rx_flow_reads_zero :
    (hsi_set_rx omap4 (rx_cfg_mode_flow 2 1) sys0).1 = 0 ∧
    (hsi_set_rx omap4 (rx_cfg_mode_flow 2 1) sys0).2.st.regs (Reg.HSI_HSR_MODE_REG 1) = 6 ∧
    (hsi_get_rx omap4 (rx_cfg_mode_flow 2 1)
      (hsi_set_rx omap4 (rx_cfg_mode_flow 2 1) sys0).2).1.mode = 2 ∧
    (hsi_get_rx omap4 (rx_cfg_mode_flow 2 1)
      (hsi_set_rx omap4 (rx_cfg_mode_flow 2 1) sys0).2).1.flow = 0 := by
  decide

end Hsi
